import Mathlib

/-!
Shallow embedding of drivers/rtc/rtc-max77686.c (Maxim MAX77686/MAX77802/
MAX77620/MAX77714 RTC driver) together with the iPhone 6s devicetree
fragment, and proofs of the specified properties.

Register addresses that the driver takes from linux/mfd/max77686-private.h
(a header that is not part of this source fragment) are modelled as fields
of a header structure; everything else is translated directly from the C
source.
-/

namespace Max77686Rtc

/-! ## Constants from the C source -/

/-- RTC Update Register1: RTC_UDR_SHIFT. -/
def RTC_UDR_SHIFT : Nat := 0

/-- RTC Update Register1: RTC_RBUDR_SHIFT. -/
def RTC_RBUDR_SHIFT : Nat := 4

/-- RTC Alarm Enable: ALARM_ENABLE_SHIFT. -/
def ALARM_ENABLE_SHIFT : Nat := 7

/-- ALARM_ENABLE_MASK = BIT(ALARM_ENABLE_SHIFT). -/
def ALARM_ENABLE_MASK : Nat := 1 <<< ALARM_ENABLE_SHIFT

/-- Sentinel for a register offset with no register behind it. -/
def REG_RTC_NONE : Nat := 0xdeadbeef

/-- MAX77802_ALARM_ENABLE_VALUE, written to RTCAE1 to enable all alarm fields. -/
def MAX77802_ALARM_ENABLE_VALUE : Nat := 0x77

/-- MAX77686_INVALID_REG, used for a missing alarm pending status register. -/
def MAX77686_INVALID_REG : Int := -1

/-- Linux EINVAL errno value; the driver returns -EINVAL. -/
def EINVAL : Int := 22

/-- Indices into the seven byte time buffer (enum in the C source). -/
def RTC_SEC : Nat := 0
def RTC_MIN : Nat := 1
def RTC_HOUR : Nat := 2
def RTC_WEEKDAY : Nat := 3
def RTC_MONTH : Nat := 4
def RTC_YEAR : Nat := 5
def RTC_MONTHDAY : Nat := 6
def RTC_NR_TIME : Nat := 7

/-- Register offsets (enum max77686_rtc_reg_offset); offsets, not addresses. -/
def REG_RTC_CONTROLM : Nat := 0
def REG_RTC_CONTROL : Nat := 1
def REG_RTC_UPDATE0 : Nat := 2
def REG_WTSR_SMPL_CNTL : Nat := 3
def REG_RTC_SEC : Nat := 4
def REG_ALARM1_SEC : Nat := 11
def REG_ALARM2_SEC : Nat := 18
def REG_RTC_AE1 : Nat := 25
def REG_RTC_END : Nat := 26

/-! ## Kernel data types used by the driver -/

/-- Model of struct rtc_time (the fields this driver touches). C ints are
modelled as unbounded Int. -/
structure RtcTime where
  tm_sec : Int
  tm_min : Int
  tm_hour : Int
  tm_mday : Int
  tm_mon : Int
  tm_year : Int
  tm_wday : Int
  tm_yday : Int
  tm_isdst : Int
deriving Repr, DecidableEq

/-- Model of struct rtc_wkalrm. -/
structure RtcWkalrm where
  enabled : Nat
  pending : Nat
  time : RtcTime
deriving Repr, DecidableEq

/-- Conversion of a C int to an unsigned 8-bit register byte (truncation
modulo 256, as performed by assigning an int to a u8). -/
def u8of (x : Int) : Nat := (x % 256).toNat

/-- C library ffs (find first set, 1-based, 0 when the argument is 0),
computed over at most 32 bits, with explicit fuel so that it is a
structural recursion. -/
def ffsAux : Nat → Nat → Nat
  | 0, _ => 0
  | fuel + 1, x => if x = 0 then 0 else if x % 2 = 1 then 1 else ffsAux fuel (x / 2) + 1

/-- C ffs on a 32-bit quantity. -/
def ffs (x : Nat) : Nat := ffsAux 32 x

/-! ## Model-specific driver data

Struct max77686_rtc_driver_data; only the fields the verified operations
read are kept (the IRQ-chip and regmap-config fields configure host kernel
frameworks and are never read by the class operations). -/

structure DrvData where
  delay : Nat
  mask : Nat
  map : Nat → Nat
  alarm_enable_reg : Bool
  alarm_pending_status_reg : Int

/-! ## Chip register addresses

Modelled from the spec: the concrete register addresses come from
linux/mfd/max77686-private.h, which is not part of this source fragment;
the spec only says the entities are "fixed hardware register offsets".
They are therefore modelled as arbitrary fixed byte addresses of an 8-bit
register map (the driver's regmap_config uses reg_bits = 8), with the
MAX77686/MAX77802 constants gathered in one structure per chip. -/

/-- Modelled from the spec: MAX77686_* register address constants of
linux/mfd/max77686-private.h (shared by MAX77620 and MAX77714). -/
structure Max77686Header where
  rtc_controlm : Nat
  rtc_control : Nat
  rtc_update0 : Nat
  wtsr_smpl_cntl : Nat
  rtc_sec : Nat
  rtc_min : Nat
  rtc_hour : Nat
  rtc_weekday : Nat
  rtc_month : Nat
  rtc_year : Nat
  rtc_monthday : Nat
  alarm1_sec : Nat
  alarm1_min : Nat
  alarm1_hour : Nat
  alarm1_weekday : Nat
  alarm1_month : Nat
  alarm1_year : Nat
  alarm1_date : Nat
  alarm2_sec : Nat
  alarm2_min : Nat
  alarm2_hour : Nat
  alarm2_weekday : Nat
  alarm2_month : Nat
  alarm2_year : Nat
  alarm2_date : Nat
  reg_status2 : Nat
deriving Repr, DecidableEq

/-- Modelled from the spec: MAX77802_* register address constants of
linux/mfd/max77686-private.h. -/
structure Max77802Header where
  rtc_controlm : Nat
  rtc_control : Nat
  rtc_update0 : Nat
  wtsr_smpl_cntl : Nat
  rtc_sec : Nat
  rtc_min : Nat
  rtc_hour : Nat
  rtc_weekday : Nat
  rtc_month : Nat
  rtc_year : Nat
  rtc_monthday : Nat
  alarm1_sec : Nat
  alarm1_min : Nat
  alarm1_hour : Nat
  alarm1_weekday : Nat
  alarm1_month : Nat
  alarm1_year : Nat
  alarm1_date : Nat
  alarm2_sec : Nat
  alarm2_min : Nat
  alarm2_hour : Nat
  alarm2_weekday : Nat
  alarm2_month : Nat
  alarm2_year : Nat
  alarm2_date : Nat
  rtc_ae1 : Nat
  reg_status2 : Nat
deriving Repr, DecidableEq

/-- Validity of the modelled MAX77686 addresses: every constant is a byte
address of the 8-bit register map (hence distinct from the out-of-range
sentinel REG_RTC_NONE), and the update register is a different register
from the seven ALARM1 registers. -/
def Max77686Header.Valid (H : Max77686Header) : Prop :=
  H.rtc_controlm < 256 ∧ H.rtc_control < 256 ∧ H.rtc_update0 < 256 ∧
  H.wtsr_smpl_cntl < 256 ∧ H.rtc_sec < 256 ∧ H.rtc_min < 256 ∧
  H.rtc_hour < 256 ∧ H.rtc_weekday < 256 ∧ H.rtc_month < 256 ∧
  H.rtc_year < 256 ∧ H.rtc_monthday < 256 ∧ H.alarm1_sec < 256 ∧
  H.alarm1_min < 256 ∧ H.alarm1_hour < 256 ∧ H.alarm1_weekday < 256 ∧
  H.alarm1_month < 256 ∧ H.alarm1_year < 256 ∧ H.alarm1_date < 256 ∧
  H.alarm2_sec < 256 ∧ H.alarm2_min < 256 ∧ H.alarm2_hour < 256 ∧
  H.alarm2_weekday < 256 ∧ H.alarm2_month < 256 ∧ H.alarm2_year < 256 ∧
  H.alarm2_date < 256 ∧ H.reg_status2 < 256 ∧
  (∀ i, i < 7 → H.alarm1_sec + i ≠ H.rtc_update0)

/-- Validity of the modelled MAX77802 addresses. -/
def Max77802Header.Valid (H : Max77802Header) : Prop :=
  H.rtc_controlm < 256 ∧ H.rtc_control < 256 ∧ H.rtc_update0 < 256 ∧
  H.wtsr_smpl_cntl < 256 ∧ H.rtc_sec < 256 ∧ H.rtc_min < 256 ∧
  H.rtc_hour < 256 ∧ H.rtc_weekday < 256 ∧ H.rtc_month < 256 ∧
  H.rtc_year < 256 ∧ H.rtc_monthday < 256 ∧ H.alarm1_sec < 256 ∧
  H.alarm1_min < 256 ∧ H.alarm1_hour < 256 ∧ H.alarm1_weekday < 256 ∧
  H.alarm1_month < 256 ∧ H.alarm1_year < 256 ∧ H.alarm1_date < 256 ∧
  H.alarm2_sec < 256 ∧ H.alarm2_min < 256 ∧ H.alarm2_hour < 256 ∧
  H.alarm2_weekday < 256 ∧ H.alarm2_month < 256 ∧ H.alarm2_year < 256 ∧
  H.alarm2_date < 256 ∧ H.rtc_ae1 < 256 ∧ H.reg_status2 < 256 ∧
  (∀ i, i < 7 → H.alarm1_sec + i ≠ H.rtc_update0)

/-- Static const array max77686_map: register offsets to MAX77686 addresses. -/
def max77686_map (H : Max77686Header) : Nat → Nat := fun off =>
  [H.rtc_controlm, H.rtc_control, H.rtc_update0, H.wtsr_smpl_cntl,
   H.rtc_sec, H.rtc_min, H.rtc_hour, H.rtc_weekday, H.rtc_month,
   H.rtc_year, H.rtc_monthday,
   H.alarm1_sec, H.alarm1_min, H.alarm1_hour, H.alarm1_weekday,
   H.alarm1_month, H.alarm1_year, H.alarm1_date,
   H.alarm2_sec, H.alarm2_min, H.alarm2_hour, H.alarm2_weekday,
   H.alarm2_month, H.alarm2_year, H.alarm2_date,
   REG_RTC_NONE].getD off 0

/-- Static const array max77802_map: register offsets to MAX77802 addresses. -/
def max77802_map (H : Max77802Header) : Nat → Nat := fun off =>
  [H.rtc_controlm, H.rtc_control, H.rtc_update0, H.wtsr_smpl_cntl,
   H.rtc_sec, H.rtc_min, H.rtc_hour, H.rtc_weekday, H.rtc_month,
   H.rtc_year, H.rtc_monthday,
   H.alarm1_sec, H.alarm1_min, H.alarm1_hour, H.alarm1_weekday,
   H.alarm1_month, H.alarm1_year, H.alarm1_date,
   H.alarm2_sec, H.alarm2_min, H.alarm2_hour, H.alarm2_weekday,
   H.alarm2_month, H.alarm2_year, H.alarm2_date,
   H.rtc_ae1].getD off 0

/-- Driver data max77686_drv_data. -/
def max77686_drv_data (H : Max77686Header) : DrvData :=
  { delay := 16000
    mask := 0x7f
    map := max77686_map H
    alarm_enable_reg := false
    alarm_pending_status_reg := (H.reg_status2 : Int) }

/-- Driver data max77714_drv_data (alarm pending status not supported). -/
def max77714_drv_data (H : Max77686Header) : DrvData :=
  { delay := 16000
    mask := 0x7f
    map := max77686_map H
    alarm_enable_reg := false
    alarm_pending_status_reg := MAX77686_INVALID_REG }

/-- Driver data max77620_drv_data (alarm pending status not supported). -/
def max77620_drv_data (H : Max77686Header) : DrvData :=
  { delay := 16000
    mask := 0x7f
    map := max77686_map H
    alarm_enable_reg := false
    alarm_pending_status_reg := MAX77686_INVALID_REG }

/-- Driver data max77802_drv_data. -/
def max77802_drv_data (H : Max77802Header) : DrvData :=
  { delay := 200
    mask := 0xff
    map := max77802_map H
    alarm_enable_reg := true
    alarm_pending_status_reg := (H.reg_status2 : Int) }

/-! ## Time encode and decode -/

/-- Function max77686_rtc_data_to_tm: decode the seven register bytes into
an rtc_time. -/
def max77686_rtc_data_to_tm (data : List Nat) (drv : DrvData) : RtcTime :=
  let mask := drv.mask
  let year0 : Int := ((data.getD RTC_YEAR 0 &&& mask : Nat) : Int)
  { tm_sec := ((data.getD RTC_SEC 0 &&& mask : Nat) : Int)
    tm_min := ((data.getD RTC_MIN 0 &&& mask : Nat) : Int)
    tm_hour := ((data.getD RTC_HOUR 0 &&& 0x1f : Nat) : Int)
    tm_wday := ((ffs (data.getD RTC_WEEKDAY 0 &&& mask) : Nat) : Int) - 1
    tm_mday := ((data.getD RTC_MONTHDAY 0 &&& 0x1f : Nat) : Int)
    tm_mon := ((data.getD RTC_MONTH 0 &&& 0x0f : Nat) : Int) - 1
    tm_year := if drv.alarm_enable_reg then year0 else year0 + 100
    tm_yday := 0
    tm_isdst := 0 }

/-- Function max77686_rtc_tm_to_data: encode an rtc_time into the seven
register bytes; returns (ret, data) with ret = -EINVAL when the year is
out of range for models without a separate alarm enable register.  The
byte layout is [SEC, MIN, HOUR, WEEKDAY, MONTH, YEAR, MONTHDAY]. -/
def max77686_rtc_tm_to_data (tm : RtcTime) (drv : DrvData) : Int × List Nat :=
  let wdayByte : Nat := (1 <<< tm.tm_wday.toNat) % 256
  if drv.alarm_enable_reg then
    (0, [u8of tm.tm_sec, u8of tm.tm_min, u8of tm.tm_hour, wdayByte,
         u8of (tm.tm_mon + 1), u8of tm.tm_year, u8of tm.tm_mday])
  else
    let yearByte : Nat := if tm.tm_year > 100 then u8of (tm.tm_year - 100) else 0
    let data := [u8of tm.tm_sec, u8of tm.tm_min, u8of tm.tm_hour, wdayByte,
                 u8of (tm.tm_mon + 1), yearByte, u8of tm.tm_mday]
    if tm.tm_year < 100 then (-EINVAL, data) else (0, data)

/-! ## Bus model

Register transactions (regmap calls) are modelled against a register file
plus a failure schedule: the n-th regmap call of an operation returns the
error `e` when the schedule maps n to `some e`, and succeeds (returns 0)
when it maps n to `none`.  Every call is recorded in an event trace which
also records mutex lock and unlock and the settle sleeps, so that ordering
and locking properties can be stated. -/

/-- One bus transaction, as recorded in the trace. -/
inductive Trans where
  | updateBits (addr msk val : Nat)
  | bulkRead (addr len : Nat)
  | bulkWrite (addr : Nat) (vals : List Nat)
  | regRead (addr : Nat)
  | regWrite (addr val : Nat)
  | mainRead (addr : Int)
deriving Repr, DecidableEq

/-- An event of an operation: mutex lock/unlock, a bus transaction, or a
sleep of some duration within the closed interval [lo, hi] (usleep_range). -/
inductive Event where
  | lock
  | unlock
  | trans (t : Trans)
  | sleep (lo hi : Nat)
deriving Repr, DecidableEq

/-- State threaded through an operation: the RTC register file, the main
PMIC register file, the number of regmap calls made so far, and the trace. -/
structure BusState where
  regs : Nat → Nat
  mainRegs : Nat → Nat
  nCalls : Nat
  trace : List Event

/-- A failure schedule for the regmap calls of one operation. -/
def Sched := Nat → Option Int

/-- The schedule on which every regmap call succeeds. -/
def allOk : Sched := fun _ => none

/-- Return code of the n-th regmap call under a schedule. -/
def busResult (sched : Sched) (n : Nat) : Int :=
  match sched n with
  | none => 0
  | some e => e

/-- Record one regmap call: produce its return code and count and trace it. -/
def recordCall (sched : Sched) (st : BusState) (t : Trans) : Int × BusState :=
  (busResult sched st.nCalls,
   { st with nCalls := st.nCalls + 1, trace := st.trace ++ [Event.trans t] })

/-- Model of regmap_update_bits: read/modify/write of one register; the new
value is (old AND NOT msk) OR (val AND msk).  On failure the register file
is unchanged. -/
def regmap_update_bits (sched : Sched) (st : BusState) (addr msk val : Nat) :
    Int × BusState :=
  let r := recordCall sched st (Trans.updateBits addr msk val)
  if r.1 < 0 then r
  else (r.1, { r.2 with regs := (fun a =>
    if a = addr then (r.2.regs a &&& (255 ^^^ msk)) ||| (val &&& msk)
    else r.2.regs a) })

/-- Model of regmap_bulk_read: read len consecutive registers starting at
addr.  The returned bytes are meaningful only when the call succeeded. -/
def regmap_bulk_read (sched : Sched) (st : BusState) (addr len : Nat) :
    Int × List Nat × BusState :=
  let r := recordCall sched st (Trans.bulkRead addr len)
  (r.1, (List.range len).map (fun i => st.regs (addr + i)), r.2)

/-- Model of regmap_bulk_write: write consecutive registers starting at
addr.  On failure the register file is unchanged. -/
def regmap_bulk_write (sched : Sched) (st : BusState) (addr : Nat)
    (vals : List Nat) : Int × BusState :=
  let r := recordCall sched st (Trans.bulkWrite addr vals)
  if r.1 < 0 then r
  else (r.1, { r.2 with regs := (fun a =>
    if addr ≤ a ∧ a - addr < vals.length then vals.getD (a - addr) 0
    else r.2.regs a) })

/-- Model of regmap_read on the RTC regmap. -/
def regmap_read (sched : Sched) (st : BusState) (addr : Nat) :
    Int × Nat × BusState :=
  let r := recordCall sched st (Trans.regRead addr)
  (r.1, st.regs addr, r.2)

/-- Model of regmap_write on the RTC regmap. -/
def regmap_write (sched : Sched) (st : BusState) (addr val : Nat) :
    Int × BusState :=
  let r := recordCall sched st (Trans.regWrite addr val)
  if r.1 < 0 then r
  else (r.1, { r.2 with regs := fun a => if a = addr then val else r.2.regs a })

/-- Model of regmap_read on the main PMIC regmap (info->regmap). -/
def regmap_read_main (sched : Sched) (st : BusState) (addr : Int) :
    Int × Nat × BusState :=
  let r := recordCall sched st (Trans.mainRead addr)
  (r.1, st.mainRegs addr.toNat, r.2)

/-- Fresh state of an operation after mutex_lock(&info->lock). -/
def lockSt (regs mainRegs : Nat → Nat) : BusState :=
  { regs := regs, mainRegs := mainRegs, nCalls := 0, trace := [Event.lock] }

/-- Record mutex_unlock(&info->lock). -/
def unlockSt (st : BusState) : BusState :=
  { st with trace := st.trace ++ [Event.unlock] }

/-! ## The driver operations -/

/-- Enum MAX77686_RTC_OP. -/
inductive RtcOp where
  | write
  | read
deriving Repr, DecidableEq

/-- Function max77686_rtc_update: commit a write (UDR) or trigger a read
buffer update (RBUDR) and, on success only, sleep within
[delay, delay * 2]. -/
def max77686_rtc_update (drv : DrvData) (sched : Sched) (st : BusState)
    (op : RtcOp) : Int × BusState :=
  let d : Nat := match op with
    | RtcOp.write => 1 <<< RTC_UDR_SHIFT
    | RtcOp.read => 1 <<< RTC_RBUDR_SHIFT
  let r := regmap_update_bits sched st (drv.map REG_RTC_UPDATE0) d d
  if r.1 < 0 then r
  else (r.1, { r.2 with trace := r.2.trace ++ [Event.sleep drv.delay (drv.delay * 2)] })

/-- Function max77686_rtc_read_time.  On failure the caller's rtc_time tm0
is returned unchanged. -/
def max77686_rtc_read_time (drv : DrvData) (sched : Sched)
    (regs mainRegs : Nat → Nat) (tm0 : RtcTime) : Int × RtcTime × BusState :=
  let st := lockSt regs mainRegs
  let r1 := max77686_rtc_update drv sched st RtcOp.read
  if r1.1 < 0 then (r1.1, tm0, unlockSt r1.2)
  else
    let r2 := regmap_bulk_read sched r1.2 (drv.map REG_RTC_SEC) RTC_NR_TIME
    if r2.1 < 0 then (r2.1, tm0, unlockSt r2.2.2)
    else (r2.1, max77686_rtc_data_to_tm r2.2.1 drv, unlockSt r2.2.2)

/-- Function max77686_rtc_set_time. -/
def max77686_rtc_set_time (drv : DrvData) (sched : Sched)
    (regs mainRegs : Nat → Nat) (tm : RtcTime) : Int × BusState :=
  let e := max77686_rtc_tm_to_data tm drv
  if e.1 < 0 then (e.1, { regs := regs, mainRegs := mainRegs, nCalls := 0, trace := [] })
  else
    let st := lockSt regs mainRegs
    let r1 := regmap_bulk_write sched st (drv.map REG_RTC_SEC) e.2
    if r1.1 < 0 then (r1.1, unlockSt r1.2)
    else
      let r2 := max77686_rtc_update drv sched r1.2 RtcOp.write
      (r2.1, unlockSt r2.2)

/-- Tail of max77686_rtc_read_alarm: the alarm pending status part, from
"alrm->pending = 0" to the unlock, with ret the current return value. -/
def max77686_rtc_read_alarm_pending (drv : DrvData) (sched : Sched)
    (st : BusState) (ret : Int) (a : RtcWkalrm) : Int × RtcWkalrm × BusState :=
  let a1 := { a with pending := 0 }
  if drv.alarm_pending_status_reg = MAX77686_INVALID_REG then (ret, a1, unlockSt st)
  else
    let r := regmap_read_main sched st drv.alarm_pending_status_reg
    if r.1 < 0 then (r.1, a1, unlockSt r.2.2)
    else
      let a2 := if r.2.1 &&& (1 <<< 4) ≠ 0 then { a1 with pending := 1 } else a1
      (r.1, a2, unlockSt r.2.2)

/-- Function max77686_rtc_read_alarm.  On early failure the caller's
rtc_wkalrm alrm0 is returned as far as the C code left it. -/
def max77686_rtc_read_alarm (drv : DrvData) (sched : Sched)
    (regs mainRegs : Nat → Nat) (alrm0 : RtcWkalrm) : Int × RtcWkalrm × BusState :=
  let st := lockSt regs mainRegs
  let r1 := max77686_rtc_update drv sched st RtcOp.read
  if r1.1 < 0 then (r1.1, alrm0, unlockSt r1.2)
  else
    let r2 := regmap_bulk_read sched r1.2 (drv.map REG_ALARM1_SEC) RTC_NR_TIME
    if r2.1 < 0 then (r2.1, alrm0, unlockSt r2.2.2)
    else
      let data := r2.2.1
      let a1 := { alrm0 with time := max77686_rtc_data_to_tm data drv, enabled := 0 }
      if drv.alarm_enable_reg then
        if drv.map REG_RTC_AE1 = REG_RTC_NONE then (-EINVAL, a1, unlockSt r2.2.2)
        else
          let r3 := regmap_read sched r2.2.2 (drv.map REG_RTC_AE1)
          if r3.1 < 0 then (r3.1, a1, unlockSt r3.2.2)
          else
            let a2 := if r3.2.1 ≠ 0 then { a1 with enabled := 1 } else a1
            max77686_rtc_read_alarm_pending drv sched r3.2.2 r3.1 a2
      else
        let a2 := if data.any (fun b => (b &&& ALARM_ENABLE_MASK) != 0) then
          { a1 with enabled := 1 } else a1
        max77686_rtc_read_alarm_pending drv sched r2.2.2 r2.1 a2

/-- Function max77686_rtc_stop_alarm (runs with the mutex already held; the
decode of the read bytes into a local rtc_time in the C code has no effect
and is omitted). -/
def max77686_rtc_stop_alarm (drv : DrvData) (sched : Sched) (st : BusState) :
    Int × BusState :=
  let r1 := max77686_rtc_update drv sched st RtcOp.read
  if r1.1 < 0 then r1
  else if drv.alarm_enable_reg then
    if drv.map REG_RTC_AE1 = REG_RTC_NONE then (-EINVAL, r1.2)
    else
      let r2 := regmap_write sched r1.2 (drv.map REG_RTC_AE1) 0
      if r2.1 < 0 then r2
      else max77686_rtc_update drv sched r2.2 RtcOp.write
  else
    let r2 := regmap_bulk_read sched r1.2 (drv.map REG_ALARM1_SEC) RTC_NR_TIME
    if r2.1 < 0 then (r2.1, r2.2.2)
    else
      let data := r2.2.1.map (fun b => b &&& (255 ^^^ ALARM_ENABLE_MASK))
      let r3 := regmap_bulk_write sched r2.2.2 (drv.map REG_ALARM1_SEC) data
      if r3.1 < 0 then r3
      else max77686_rtc_update drv sched r3.2 RtcOp.write

/-- Alarm enable bit edits of max77686_rtc_start_alarm on the seven read
bytes d: set the enable bit of SEC/MIN/HOUR, clear it on WEEKDAY, and set
it on MONTH/YEAR/MONTHDAY only when the masked field is non-zero. -/
def startAlarmData (d : List Nat) (mask : Nat) : List Nat :=
  [d.getD RTC_SEC 0 ||| ALARM_ENABLE_MASK,
   d.getD RTC_MIN 0 ||| ALARM_ENABLE_MASK,
   d.getD RTC_HOUR 0 ||| ALARM_ENABLE_MASK,
   d.getD RTC_WEEKDAY 0 &&& (255 ^^^ ALARM_ENABLE_MASK),
   if d.getD RTC_MONTH 0 &&& 0x0f ≠ 0 then
     d.getD RTC_MONTH 0 ||| ALARM_ENABLE_MASK else d.getD RTC_MONTH 0,
   if d.getD RTC_YEAR 0 &&& mask ≠ 0 then
     d.getD RTC_YEAR 0 ||| ALARM_ENABLE_MASK else d.getD RTC_YEAR 0,
   if d.getD RTC_MONTHDAY 0 &&& 0x1f ≠ 0 then
     d.getD RTC_MONTHDAY 0 ||| ALARM_ENABLE_MASK else d.getD RTC_MONTHDAY 0]

/-- Function max77686_rtc_start_alarm (runs with the mutex already held;
the effect-free decode into a local rtc_time is omitted). -/
def max77686_rtc_start_alarm (drv : DrvData) (sched : Sched) (st : BusState) :
    Int × BusState :=
  let r1 := max77686_rtc_update drv sched st RtcOp.read
  if r1.1 < 0 then r1
  else if drv.alarm_enable_reg then
    let r2 := regmap_write sched r1.2 (drv.map REG_RTC_AE1) MAX77802_ALARM_ENABLE_VALUE
    if r2.1 < 0 then r2
    else max77686_rtc_update drv sched r2.2 RtcOp.write
  else
    let r2 := regmap_bulk_read sched r1.2 (drv.map REG_ALARM1_SEC) RTC_NR_TIME
    if r2.1 < 0 then (r2.1, r2.2.2)
    else
      let r3 := regmap_bulk_write sched r2.2.2 (drv.map REG_ALARM1_SEC)
        (startAlarmData r2.2.1 drv.mask)
      if r3.1 < 0 then r3
      else max77686_rtc_update drv sched r3.2 RtcOp.write

/-- Function max77686_rtc_set_alarm. -/
def max77686_rtc_set_alarm (drv : DrvData) (sched : Sched)
    (regs mainRegs : Nat → Nat) (alrm : RtcWkalrm) : Int × BusState :=
  let e := max77686_rtc_tm_to_data alrm.time drv
  if e.1 < 0 then (e.1, { regs := regs, mainRegs := mainRegs, nCalls := 0, trace := [] })
  else
    let st := lockSt regs mainRegs
    let r1 := max77686_rtc_stop_alarm drv sched st
    if r1.1 < 0 then (r1.1, unlockSt r1.2)
    else
      let r2 := regmap_bulk_write sched r1.2 (drv.map REG_ALARM1_SEC) e.2
      if r2.1 < 0 then (r2.1, unlockSt r2.2)
      else
        let r3 := max77686_rtc_update drv sched r2.2 RtcOp.write
        if r3.1 < 0 then (r3.1, unlockSt r3.2)
        else if alrm.enabled ≠ 0 then
          let r4 := max77686_rtc_start_alarm drv sched r3.2
          (r4.1, unlockSt r4.2)
        else (r3.1, unlockSt r3.2)

/-- Function max77686_rtc_alarm_irq_enable. -/
def max77686_rtc_alarm_irq_enable (drv : DrvData) (sched : Sched)
    (regs mainRegs : Nat → Nat) (enabled : Nat) : Int × BusState :=
  let st := lockSt regs mainRegs
  let r := if enabled ≠ 0 then max77686_rtc_start_alarm drv sched st
           else max77686_rtc_stop_alarm drv sched st
  (r.1, unlockSt r.2)

/-! ## Predicates used by the theorems -/

/-- A trace fragment without mutex events. -/
def lockFree (l : List Event) : Bool :=
  l.all fun e => match e with
    | Event.lock => false
    | Event.unlock => false
    | _ => true

/-- Check a trace starting at mutex depth d: every bus transaction happens
at positive depth, unlock never happens at depth 0, and the final depth is
0 (the mutex is released before the operation returns). -/
def lockCheck : List Event → Nat → Bool
  | [], d => d == 0
  | Event.lock :: r, d => lockCheck r (d + 1)
  | Event.unlock :: r, d => d != 0 && lockCheck r (d - 1)
  | Event.trans _ :: r, d => d != 0 && lockCheck r d
  | Event.sleep _ _ :: r, d => lockCheck r d

/-- State st2 extends the trace of st by mutex-event-free events only. -/
def TraceExt (st st2 : BusState) : Prop :=
  ∃ l, st2.trace = st.trace ++ l ∧ lockFree l = true

/-- Schedules whose failure codes are genuine errors (negative), as the
regmap contract guarantees. -/
def ErrsNeg (sched : Sched) : Prop := ∀ i e, sched i = some e → e < 0

/-- Transaction accounting of one (piece of an) operation that made the
regmap calls numbered n0, ..., n1 - 1 and returned ret: on a non-negative
return every call succeeded; on a negative return either the driver
generated -EINVAL itself and every call made so far succeeded, or the
error is the unchanged failure code of the last call made and every
earlier call succeeded — in particular no call is retried after a
failure. -/
def StepSpec (sched : Sched) (n0 : Nat) (ret : Int) (n1 : Nat) : Prop :=
  n0 ≤ n1 ∧
  (0 ≤ ret → ∀ i, n0 ≤ i → i < n1 → sched i = none) ∧
  (ret < 0 →
    (ret = -EINVAL ∧ ∀ i, n0 ≤ i → i < n1 → sched i = none) ∨
    (n0 < n1 ∧ sched (n1 - 1) = some ret ∧
      ∀ i, n0 ≤ i → i < n1 - 1 → sched i = none))

/-! ## Concrete header instances

Witness data: one arbitrary valid assignment of the modelled register
addresses per chip (the layout mirrors the MAX77686 datasheet's RTC block;
any Valid assignment works). -/

/-- A concrete valid MAX77686 address assignment. -/
def H686c : Max77686Header :=
  { rtc_controlm := 0x02, rtc_control := 0x03, rtc_update0 := 0x04
    wtsr_smpl_cntl := 0x06
    rtc_sec := 0x07, rtc_min := 0x08, rtc_hour := 0x09, rtc_weekday := 0x0a
    rtc_month := 0x0b, rtc_year := 0x0c, rtc_monthday := 0x0d
    alarm1_sec := 0x0e, alarm1_min := 0x0f, alarm1_hour := 0x10
    alarm1_weekday := 0x11, alarm1_month := 0x12, alarm1_year := 0x13
    alarm1_date := 0x14
    alarm2_sec := 0x15, alarm2_min := 0x16, alarm2_hour := 0x17
    alarm2_weekday := 0x18, alarm2_month := 0x19, alarm2_year := 0x1a
    alarm2_date := 0x1b
    reg_status2 := 0x05 }

/-- A concrete valid MAX77802 address assignment. -/
def H802c : Max77802Header :=
  { rtc_controlm := 0xc1, rtc_control := 0xc2, rtc_update0 := 0xc3
    wtsr_smpl_cntl := 0xc5
    rtc_sec := 0xc6, rtc_min := 0xc7, rtc_hour := 0xc8, rtc_weekday := 0xc9
    rtc_month := 0xca, rtc_year := 0xcb, rtc_monthday := 0xcc
    alarm1_sec := 0xcd, alarm1_min := 0xce, alarm1_hour := 0xcf
    alarm1_weekday := 0xd0, alarm1_month := 0xd1, alarm1_year := 0xd2
    alarm1_date := 0xd3
    alarm2_sec := 0xd4, alarm2_min := 0xd5, alarm2_hour := 0xd6
    alarm2_weekday := 0xd7, alarm2_month := 0xd8, alarm2_year := 0xd9
    alarm2_date := 0xda
    rtc_ae1 := 0xdb
    reg_status2 := 0x05 }

/-- Zero register file used in witnesses. -/
def zeroRegs : Nat → Nat := fun _ => 0

/-- Concrete MAX77686 driver data used in witnesses. -/
def drv686c : DrvData := max77686_drv_data H686c

/-- Concrete MAX77802 driver data used in witnesses. -/
def drv802c : DrvData := max77802_drv_data H802c

/-- A concrete in-range rtc_time used in witnesses. -/
def tmW : RtcTime :=
  { tm_sec := 30, tm_min := 15, tm_hour := 10, tm_mday := 12, tm_mon := 9
    tm_year := 125, tm_wday := 3, tm_yday := 0, tm_isdst := 0 }

/-- A concrete rtc_time with tm_year = 50 (before the year 2000). -/
def tm50 : RtcTime :=
  { tm_sec := 0, tm_min := 0, tm_hour := 0, tm_mday := 1, tm_mon := 0
    tm_year := 50, tm_wday := 0, tm_yday := 0, tm_isdst := 0 }

/-- A concrete rtc_wkalrm used in witnesses. -/
def alrmW : RtcWkalrm := { enabled := 1, pending := 0, time := tmW }

/-- A concrete rtc_wkalrm whose time has tm_year = 50. -/
def alrm50 : RtcWkalrm := { enabled := 1, pending := 0, time := tm50 }

/-- A schedule whose only failure is error -5 on the first regmap call. -/
def schedW : Sched := fun i => if i = 0 then some (-5) else none

/-- Mask RTC_UDR_MASK = BIT(RTC_UDR_SHIFT). -/
def RTC_UDR_MASK : Nat := 1 <<< RTC_UDR_SHIFT

/-- Mask RTC_RBUDR_MASK = BIT(RTC_RBUDR_SHIFT). -/
def RTC_RBUDR_MASK : Nat := 1 <<< RTC_RBUDR_SHIFT

/-! ## Devicetree fragment (Apple iPhone 6s / 6S Plus common device tree)

The gpio-keys and framebuffer0 nodes of the devicetree source are embedded
as declarative data. -/

/-- Modelled from the spec: Linux input event code KEY_HOMEPAGE of
dt-bindings/input/input.h (header not part of this fragment). -/
def KEY_HOMEPAGE : Nat := 172

/-- Modelled from the spec: Linux input event code KEY_POWER. -/
def KEY_POWER : Nat := 116

/-- Modelled from the spec: Linux input event code KEY_VOLUMEDOWN. -/
def KEY_VOLUMEDOWN : Nat := 114

/-- Modelled from the spec: Linux input event code KEY_VOLUMEUP. -/
def KEY_VOLUMEUP : Nat := 115

/-- Modelled from the spec: Linux input event code KEY_MUTE. -/
def KEY_MUTE : Nat := 113

/-- One gpio-keys child node: its label, GPIO controller phandle name and
line, active level, Linux input code and wakeup-source marker. -/
structure GpioKey where
  label : String
  gpioController : String
  gpioLine : Nat
  activeLow : Bool
  code : Nat
  wakeupSource : Bool
deriving Repr, DecidableEq

/-- The gpio-keys node of the iPhone 6s common devicetree. -/
def iphone6s_gpio_keys : List GpioKey :=
  [ { label := "Home Button", gpioController := "pinctrl_ap", gpioLine := 96,
      activeLow := true, code := KEY_HOMEPAGE, wakeupSource := true },
    { label := "Power Button", gpioController := "pinctrl_ap", gpioLine := 97,
      activeLow := true, code := KEY_POWER, wakeupSource := true },
    { label := "Volume Down", gpioController := "pinctrl_ap", gpioLine := 67,
      activeLow := true, code := KEY_VOLUMEDOWN, wakeupSource := false },
    { label := "Volume Up", gpioController := "pinctrl_ap", gpioLine := 66,
      activeLow := true, code := KEY_VOLUMEUP, wakeupSource := false },
    { label := "Mute Switch", gpioController := "pinctrl_ap", gpioLine := 149,
      activeLow := true, code := KEY_MUTE, wakeupSource := false } ]

/-- The power-domains property of the framebuffer0 node. -/
def framebuffer0_power_domains : List String := ["ps_disp0", "ps_mipi_dsi"]

/-! ## Transaction accounting lemmas -/

theorem stepSpec_call (sched : Sched) (h : ErrsNeg sched) (n : Nat) :
    StepSpec sched n (busResult sched n) (n + 1) := by
  refine ⟨Nat.le_succ n, ?_, ?_⟩
  · intro hr i hi1 hi2
    have hi : i = n := by omega
    subst hi
    cases h' : sched i with
    | none => rfl
    | some e =>
      have he := h i e h'
      have hb : busResult sched i = e := by simp [busResult, h']
      omega
  · intro hr
    right
    cases h' : sched n with
    | none =>
      have hb : busResult sched n = 0 := by simp [busResult, h']
      omega
    | some e =>
      have hb : busResult sched n = e := by simp [busResult, h']
      refine ⟨by omega, ?_, by intro i hi1 hi2; omega⟩
      have hn : n + 1 - 1 = n := by omega
      rw [hn, hb, h']

theorem stepSpec_seq {sched : Sched} {n0 n1 n2 : Nat} {r1 r2 : Int}
    (h1 : StepSpec sched n0 r1 n1) (hr : 0 ≤ r1)
    (h2 : StepSpec sched n1 r2 n2) : StepSpec sched n0 r2 n2 := by
  obtain ⟨a1, s1, f1⟩ := h1
  obtain ⟨a2, s2, f2⟩ := h2
  refine ⟨by omega, ?_, ?_⟩
  · intro hr2 i hi1 hi2
    by_cases hc : i < n1
    · exact s1 hr i hi1 hc
    · exact s2 hr2 i (by omega) hi2
  · intro hneg
    rcases f2 hneg with ⟨he, hall⟩ | ⟨hlt, hlast, hall⟩
    · left
      refine ⟨he, ?_⟩
      intro i hi1 hi2
      by_cases hc : i < n1
      · exact s1 hr i hi1 hc
      · exact hall i (by omega) hi2
    · right
      refine ⟨by omega, hlast, ?_⟩
      intro i hi1 hi2
      by_cases hc : i < n1
      · exact s1 hr i hi1 hc
      · exact hall i (by omega) hi2

theorem stepSpec_einval {sched : Sched} {n0 n1 : Nat} {r1 : Int}
    (h1 : StepSpec sched n0 r1 n1) (hr : 0 ≤ r1) :
    StepSpec sched n0 (-EINVAL) n1 := by
  obtain ⟨a1, s1, f1⟩ := h1
  refine ⟨a1, ?_, ?_⟩
  · intro h22
    exfalso
    simp only [EINVAL] at h22
    omega
  · intro _
    exact Or.inl ⟨rfl, s1 hr⟩

theorem stepSpec_pure {sched : Sched} {n : Nat} {r : Int} (hr : 0 ≤ r) :
    StepSpec sched n r n := by
  refine ⟨Nat.le_refl n, ?_, ?_⟩
  · intro _ i hi1 hi2
    omega
  · intro hneg
    omega

theorem regmap_update_bits_stepSpec {sched : Sched} (h : ErrsNeg sched)
    (st : BusState) (addr msk val : Nat) :
    StepSpec sched st.nCalls (regmap_update_bits sched st addr msk val).1
      (regmap_update_bits sched st addr msk val).2.nCalls := by
  have h1 : (regmap_update_bits sched st addr msk val).1 = busResult sched st.nCalls := by
    simp only [regmap_update_bits, recordCall]
    split <;> rfl
  have h2 : (regmap_update_bits sched st addr msk val).2.nCalls = st.nCalls + 1 := by
    simp only [regmap_update_bits, recordCall]
    split <;> rfl
  rw [h1, h2]
  exact stepSpec_call sched h st.nCalls

theorem regmap_bulk_read_stepSpec {sched : Sched} (h : ErrsNeg sched)
    (st : BusState) (addr len : Nat) :
    StepSpec sched st.nCalls (regmap_bulk_read sched st addr len).1
      (regmap_bulk_read sched st addr len).2.2.nCalls := by
  exact stepSpec_call sched h st.nCalls

theorem regmap_bulk_write_stepSpec {sched : Sched} (h : ErrsNeg sched)
    (st : BusState) (addr : Nat) (vals : List Nat) :
    StepSpec sched st.nCalls (regmap_bulk_write sched st addr vals).1
      (regmap_bulk_write sched st addr vals).2.nCalls := by
  have h1 : (regmap_bulk_write sched st addr vals).1 = busResult sched st.nCalls := by
    simp only [regmap_bulk_write, recordCall]
    split <;> rfl
  have h2 : (regmap_bulk_write sched st addr vals).2.nCalls = st.nCalls + 1 := by
    simp only [regmap_bulk_write, recordCall]
    split <;> rfl
  rw [h1, h2]
  exact stepSpec_call sched h st.nCalls

theorem regmap_read_stepSpec {sched : Sched} (h : ErrsNeg sched)
    (st : BusState) (addr : Nat) :
    StepSpec sched st.nCalls (regmap_read sched st addr).1
      (regmap_read sched st addr).2.2.nCalls := by
  exact stepSpec_call sched h st.nCalls

theorem regmap_write_stepSpec {sched : Sched} (h : ErrsNeg sched)
    (st : BusState) (addr val : Nat) :
    StepSpec sched st.nCalls (regmap_write sched st addr val).1
      (regmap_write sched st addr val).2.nCalls := by
  have h1 : (regmap_write sched st addr val).1 = busResult sched st.nCalls := by
    simp only [regmap_write, recordCall]
    split <;> rfl
  have h2 : (regmap_write sched st addr val).2.nCalls = st.nCalls + 1 := by
    simp only [regmap_write, recordCall]
    split <;> rfl
  rw [h1, h2]
  exact stepSpec_call sched h st.nCalls

theorem regmap_read_main_stepSpec {sched : Sched} (h : ErrsNeg sched)
    (st : BusState) (addr : Int) :
    StepSpec sched st.nCalls (regmap_read_main sched st addr).1
      (regmap_read_main sched st addr).2.2.nCalls := by
  exact stepSpec_call sched h st.nCalls

theorem rtc_update_stepSpec {sched : Sched} (h : ErrsNeg sched) (drv : DrvData)
    (st : BusState) (op : RtcOp) :
    StepSpec sched st.nCalls (max77686_rtc_update drv sched st op).1
      (max77686_rtc_update drv sched st op).2.nCalls := by
  have hb := regmap_update_bits_stepSpec h st (drv.map REG_RTC_UPDATE0)
  cases op <;> simp only [max77686_rtc_update] <;> split
  · exact hb _ _
  · exact hb _ _
  · exact hb _ _
  · exact hb _ _

theorem tm_to_data_ret (tm : RtcTime) (drv : DrvData) :
    (max77686_rtc_tm_to_data tm drv).1 = 0 ∨
    (max77686_rtc_tm_to_data tm drv).1 = -EINVAL := by
  simp only [max77686_rtc_tm_to_data]
  split
  · left; rfl
  · split
    · right; rfl
    · left; rfl

theorem stop_alarm_stepSpec {sched : Sched} (h : ErrsNeg sched) (drv : DrvData)
    (st : BusState) :
    StepSpec sched st.nCalls (max77686_rtc_stop_alarm drv sched st).1
      (max77686_rtc_stop_alarm drv sched st).2.nCalls := by
  have hu := rtc_update_stepSpec h drv st RtcOp.read
  simp only [max77686_rtc_stop_alarm]
  by_cases hc1 : (max77686_rtc_update drv sched st RtcOp.read).1 < 0
  · rw [if_pos hc1]
    exact hu
  · rw [if_neg hc1]
    have hr1 : (0 : Int) ≤ (max77686_rtc_update drv sched st RtcOp.read).1 := by omega
    split
    · -- alarm_enable_reg branch
      split
      · exact stepSpec_einval hu hr1
      · have hw := regmap_write_stepSpec h
          (max77686_rtc_update drv sched st RtcOp.read).2 (drv.map REG_RTC_AE1) 0
        by_cases hc2 : (regmap_write sched (max77686_rtc_update drv sched st RtcOp.read).2
            (drv.map REG_RTC_AE1) 0).1 < 0
        · rw [if_pos hc2]
          exact stepSpec_seq hu hr1 hw
        · rw [if_neg hc2]
          have hr2 : (0 : Int) ≤ (regmap_write sched
              (max77686_rtc_update drv sched st RtcOp.read).2 (drv.map REG_RTC_AE1) 0).1 := by omega
          exact stepSpec_seq hu hr1 (stepSpec_seq hw hr2
            (rtc_update_stepSpec h drv _ RtcOp.write))
    · -- bit-in-register branch
      have hbr := regmap_bulk_read_stepSpec h
        (max77686_rtc_update drv sched st RtcOp.read).2 (drv.map REG_ALARM1_SEC) RTC_NR_TIME
      by_cases hc2 : (regmap_bulk_read sched (max77686_rtc_update drv sched st RtcOp.read).2
          (drv.map REG_ALARM1_SEC) RTC_NR_TIME).1 < 0
      · rw [if_pos hc2]
        exact stepSpec_seq hu hr1 hbr
      · rw [if_neg hc2]
        have hr2 : (0 : Int) ≤ (regmap_bulk_read sched
            (max77686_rtc_update drv sched st RtcOp.read).2
            (drv.map REG_ALARM1_SEC) RTC_NR_TIME).1 := by omega
        have hbw := regmap_bulk_write_stepSpec h
          (regmap_bulk_read sched (max77686_rtc_update drv sched st RtcOp.read).2
            (drv.map REG_ALARM1_SEC) RTC_NR_TIME).2.2 (drv.map REG_ALARM1_SEC)
          ((regmap_bulk_read sched (max77686_rtc_update drv sched st RtcOp.read).2
            (drv.map REG_ALARM1_SEC) RTC_NR_TIME).2.1.map
              (fun b => b &&& (255 ^^^ ALARM_ENABLE_MASK)))
        by_cases hc3 : (regmap_bulk_write sched
            (regmap_bulk_read sched (max77686_rtc_update drv sched st RtcOp.read).2
              (drv.map REG_ALARM1_SEC) RTC_NR_TIME).2.2 (drv.map REG_ALARM1_SEC)
            ((regmap_bulk_read sched (max77686_rtc_update drv sched st RtcOp.read).2
              (drv.map REG_ALARM1_SEC) RTC_NR_TIME).2.1.map
                (fun b => b &&& (255 ^^^ ALARM_ENABLE_MASK)))).1 < 0
        · rw [if_pos hc3]
          exact stepSpec_seq hu hr1 (stepSpec_seq hbr hr2 hbw)
        · rw [if_neg hc3]
          have hr3 : (0 : Int) ≤ (regmap_bulk_write sched
              (regmap_bulk_read sched (max77686_rtc_update drv sched st RtcOp.read).2
                (drv.map REG_ALARM1_SEC) RTC_NR_TIME).2.2 (drv.map REG_ALARM1_SEC)
              ((regmap_bulk_read sched (max77686_rtc_update drv sched st RtcOp.read).2
                (drv.map REG_ALARM1_SEC) RTC_NR_TIME).2.1.map
                  (fun b => b &&& (255 ^^^ ALARM_ENABLE_MASK)))).1 := by omega
          exact stepSpec_seq hu hr1 (stepSpec_seq hbr hr2 (stepSpec_seq hbw hr3
            (rtc_update_stepSpec h drv _ RtcOp.write)))

theorem start_alarm_stepSpec {sched : Sched} (h : ErrsNeg sched) (drv : DrvData)
    (st : BusState) :
    StepSpec sched st.nCalls (max77686_rtc_start_alarm drv sched st).1
      (max77686_rtc_start_alarm drv sched st).2.nCalls := by
  have hu := rtc_update_stepSpec h drv st RtcOp.read
  simp only [max77686_rtc_start_alarm]
  generalize hru : max77686_rtc_update drv sched st RtcOp.read = ru at hu ⊢
  split
  · exact hu
  next hc1 =>
    split
    · have hw := regmap_write_stepSpec h ru.2 (drv.map REG_RTC_AE1) MAX77802_ALARM_ENABLE_VALUE
      generalize hrw : regmap_write sched ru.2 (drv.map REG_RTC_AE1)
        MAX77802_ALARM_ENABLE_VALUE = rr2 at hw ⊢
      split
      · exact stepSpec_seq hu (by omega) hw
      next hc2 =>
        exact stepSpec_seq hu (by omega)
          (stepSpec_seq hw (by omega) (rtc_update_stepSpec h drv rr2.2 RtcOp.write))
    · have hbr := regmap_bulk_read_stepSpec h ru.2 (drv.map REG_ALARM1_SEC) RTC_NR_TIME
      generalize hrr : regmap_bulk_read sched ru.2 (drv.map REG_ALARM1_SEC)
        RTC_NR_TIME = rr2 at hbr ⊢
      split
      · exact stepSpec_seq hu (by omega) hbr
      next hc2 =>
        have hbw := regmap_bulk_write_stepSpec h rr2.2.2 (drv.map REG_ALARM1_SEC)
          (startAlarmData rr2.2.1 drv.mask)
        generalize hrw : regmap_bulk_write sched rr2.2.2 (drv.map REG_ALARM1_SEC)
          (startAlarmData rr2.2.1 drv.mask) = rr3 at hbw ⊢
        split
        · exact stepSpec_seq hu (by omega) (stepSpec_seq hbr (by omega) hbw)
        next hc3 =>
          exact stepSpec_seq hu (by omega) (stepSpec_seq hbr (by omega)
            (stepSpec_seq hbw (by omega) (rtc_update_stepSpec h drv rr3.2 RtcOp.write)))

theorem read_time_stepSpec {sched : Sched} (h : ErrsNeg sched) (drv : DrvData)
    (regs mainRegs : Nat → Nat) (tm0 : RtcTime) :
    StepSpec sched 0 (max77686_rtc_read_time drv sched regs mainRegs tm0).1
      (max77686_rtc_read_time drv sched regs mainRegs tm0).2.2.nCalls := by
  have hu := rtc_update_stepSpec h drv (lockSt regs mainRegs) RtcOp.read
  simp only [max77686_rtc_read_time]
  generalize hru : max77686_rtc_update drv sched (lockSt regs mainRegs) RtcOp.read = ru at hu ⊢
  split
  · exact hu
  next hc1 =>
    have hbr := regmap_bulk_read_stepSpec h ru.2 (drv.map REG_RTC_SEC) RTC_NR_TIME
    generalize hrr : regmap_bulk_read sched ru.2 (drv.map REG_RTC_SEC) RTC_NR_TIME = rr at hbr ⊢
    split
    · exact stepSpec_seq hu (by omega) hbr
    · exact stepSpec_seq hu (by omega) hbr

theorem set_time_stepSpec {sched : Sched} (h : ErrsNeg sched) (drv : DrvData)
    (regs mainRegs : Nat → Nat) (tm : RtcTime) :
    StepSpec sched 0 (max77686_rtc_set_time drv sched regs mainRegs tm).1
      (max77686_rtc_set_time drv sched regs mainRegs tm).2.nCalls := by
  simp only [max77686_rtc_set_time]
  split
  next hc0 =>
    rcases tm_to_data_ret tm drv with h0 | h0
    · rw [h0] at hc0
      omega
    · rw [h0]
      exact stepSpec_einval (stepSpec_pure (le_refl (0 : Int))) (le_refl (0 : Int))
  next hc0 =>
    have hbw := regmap_bulk_write_stepSpec h (lockSt regs mainRegs) (drv.map REG_RTC_SEC)
      (max77686_rtc_tm_to_data tm drv).2
    generalize hb : regmap_bulk_write sched (lockSt regs mainRegs) (drv.map REG_RTC_SEC)
      (max77686_rtc_tm_to_data tm drv).2 = rb at hbw ⊢
    split
    · exact hbw
    next hc1 =>
      exact stepSpec_seq hbw (by omega) (rtc_update_stepSpec h drv rb.2 RtcOp.write)

theorem read_alarm_pending_stepSpec {sched : Sched} (h : ErrsNeg sched) (drv : DrvData)
    (st : BusState) (ret : Int) (a : RtcWkalrm) (hr : 0 ≤ ret) :
    StepSpec sched st.nCalls (max77686_rtc_read_alarm_pending drv sched st ret a).1
      (max77686_rtc_read_alarm_pending drv sched st ret a).2.2.nCalls := by
  simp only [max77686_rtc_read_alarm_pending]
  split
  · exact stepSpec_pure hr
  · have hm := regmap_read_main_stepSpec h st drv.alarm_pending_status_reg
    generalize hmm : regmap_read_main sched st drv.alarm_pending_status_reg = rm at hm ⊢
    split
    · exact hm
    · exact hm

theorem read_alarm_stepSpec {sched : Sched} (h : ErrsNeg sched) (drv : DrvData)
    (regs mainRegs : Nat → Nat) (alrm0 : RtcWkalrm) :
    StepSpec sched 0 (max77686_rtc_read_alarm drv sched regs mainRegs alrm0).1
      (max77686_rtc_read_alarm drv sched regs mainRegs alrm0).2.2.nCalls := by
  have hu := rtc_update_stepSpec h drv (lockSt regs mainRegs) RtcOp.read
  simp only [max77686_rtc_read_alarm]
  generalize hru : max77686_rtc_update drv sched (lockSt regs mainRegs) RtcOp.read = ru at hu ⊢
  split
  · exact hu
  next hc1 =>
    have hbr := regmap_bulk_read_stepSpec h ru.2 (drv.map REG_ALARM1_SEC) RTC_NR_TIME
    generalize hrr : regmap_bulk_read sched ru.2 (drv.map REG_ALARM1_SEC) RTC_NR_TIME = rr at hbr ⊢
    split
    · exact stepSpec_seq hu (by omega) hbr
    next hc2 =>
      split
      · split
        · exact stepSpec_einval (stepSpec_seq hu (by omega) hbr) (by omega)
        · have hrd := regmap_read_stepSpec h rr.2.2 (drv.map REG_RTC_AE1)
          generalize hrd2 : regmap_read sched rr.2.2 (drv.map REG_RTC_AE1) = rd at hrd ⊢
          split
          · exact stepSpec_seq hu (by omega) (stepSpec_seq hbr (by omega) hrd)
          next hc3 =>
            exact stepSpec_seq hu (by omega) (stepSpec_seq hbr (by omega)
              (stepSpec_seq hrd (by omega)
                (read_alarm_pending_stepSpec h drv rd.2.2 rd.1 _ (by omega))))
      · exact stepSpec_seq hu (by omega) (stepSpec_seq hbr (by omega)
          (read_alarm_pending_stepSpec h drv rr.2.2 rr.1 _ (by omega)))

theorem set_alarm_stepSpec {sched : Sched} (h : ErrsNeg sched) (drv : DrvData)
    (regs mainRegs : Nat → Nat) (alrm : RtcWkalrm) :
    StepSpec sched 0 (max77686_rtc_set_alarm drv sched regs mainRegs alrm).1
      (max77686_rtc_set_alarm drv sched regs mainRegs alrm).2.nCalls := by
  simp only [max77686_rtc_set_alarm]
  split
  next hc0 =>
    rcases tm_to_data_ret alrm.time drv with h0 | h0
    · rw [h0] at hc0
      omega
    · rw [h0]
      exact stepSpec_einval (stepSpec_pure (le_refl (0 : Int))) (le_refl (0 : Int))
  next hc0 =>
    have hst := stop_alarm_stepSpec h drv (lockSt regs mainRegs)
    generalize hs : max77686_rtc_stop_alarm drv sched (lockSt regs mainRegs) = rs at hst ⊢
    split
    · exact hst
    next hc1 =>
      have hbw := regmap_bulk_write_stepSpec h rs.2 (drv.map REG_ALARM1_SEC)
        (max77686_rtc_tm_to_data alrm.time drv).2
      generalize hb : regmap_bulk_write sched rs.2 (drv.map REG_ALARM1_SEC)
        (max77686_rtc_tm_to_data alrm.time drv).2 = rb at hbw ⊢
      split
      · exact stepSpec_seq hst (by omega) hbw
      next hc2 =>
        have hu := rtc_update_stepSpec h drv rb.2 RtcOp.write
        generalize hu2 : max77686_rtc_update drv sched rb.2 RtcOp.write = ruw at hu ⊢
        split
        · exact stepSpec_seq hst (by omega) (stepSpec_seq hbw (by omega) hu)
        next hc3 =>
          split
          · exact stepSpec_seq hst (by omega) (stepSpec_seq hbw (by omega)
              (stepSpec_seq hu (by omega) (start_alarm_stepSpec h drv ruw.2)))
          · exact stepSpec_seq hst (by omega) (stepSpec_seq hbw (by omega) hu)

theorem alarm_irq_enable_stepSpec {sched : Sched} (h : ErrsNeg sched) (drv : DrvData)
    (regs mainRegs : Nat → Nat) (enabled : Nat) :
    StepSpec sched 0 (max77686_rtc_alarm_irq_enable drv sched regs mainRegs enabled).1
      (max77686_rtc_alarm_irq_enable drv sched regs mainRegs enabled).2.nCalls := by
  simp only [max77686_rtc_alarm_irq_enable]
  split
  · exact start_alarm_stepSpec h drv (lockSt regs mainRegs)
  · exact stop_alarm_stepSpec h drv (lockSt regs mainRegs)

/-! ## Trace and locking lemmas -/

theorem traceExt_seq {a b c : BusState} (h1 : TraceExt a b) (h2 : TraceExt b c) :
    TraceExt a c := by
  obtain ⟨l1, e1, f1⟩ := h1
  obtain ⟨l2, e2, f2⟩ := h2
  refine ⟨l1 ++ l2, ?_, ?_⟩
  · rw [e2, e1, List.append_assoc]
  · simp only [lockFree, List.all_append] at f1 f2 ⊢
    rw [f1, f2]
    rfl

theorem regmap_update_bits_trace (sched : Sched) (st : BusState) (addr msk val : Nat) :
    (regmap_update_bits sched st addr msk val).2.trace
      = st.trace ++ [Event.trans (Trans.updateBits addr msk val)] := by
  simp only [regmap_update_bits, recordCall]
  split <;> rfl

theorem regmap_bulk_write_trace (sched : Sched) (st : BusState) (addr : Nat)
    (vals : List Nat) :
    (regmap_bulk_write sched st addr vals).2.trace
      = st.trace ++ [Event.trans (Trans.bulkWrite addr vals)] := by
  simp only [regmap_bulk_write, recordCall]
  split <;> rfl

theorem regmap_write_trace (sched : Sched) (st : BusState) (addr val : Nat) :
    (regmap_write sched st addr val).2.trace
      = st.trace ++ [Event.trans (Trans.regWrite addr val)] := by
  simp only [regmap_write, recordCall]
  split <;> rfl

theorem traceExt_update_bits (sched : Sched) (st : BusState) (addr msk val : Nat) :
    TraceExt st (regmap_update_bits sched st addr msk val).2 := by
  refine ⟨[Event.trans (Trans.updateBits addr msk val)], ?_, rfl⟩
  exact regmap_update_bits_trace sched st addr msk val

theorem traceExt_bulk_read (sched : Sched) (st : BusState) (addr len : Nat) :
    TraceExt st (regmap_bulk_read sched st addr len).2.2 := by
  exact ⟨[Event.trans (Trans.bulkRead addr len)], rfl, rfl⟩

theorem traceExt_bulk_write (sched : Sched) (st : BusState) (addr : Nat)
    (vals : List Nat) :
    TraceExt st (regmap_bulk_write sched st addr vals).2 := by
  refine ⟨[Event.trans (Trans.bulkWrite addr vals)], ?_, rfl⟩
  exact regmap_bulk_write_trace sched st addr vals

theorem traceExt_reg_read (sched : Sched) (st : BusState) (addr : Nat) :
    TraceExt st (regmap_read sched st addr).2.2 := by
  exact ⟨[Event.trans (Trans.regRead addr)], rfl, rfl⟩

theorem traceExt_reg_write (sched : Sched) (st : BusState) (addr val : Nat) :
    TraceExt st (regmap_write sched st addr val).2 := by
  refine ⟨[Event.trans (Trans.regWrite addr val)], ?_, rfl⟩
  exact regmap_write_trace sched st addr val

theorem traceExt_read_main (sched : Sched) (st : BusState) (addr : Int) :
    TraceExt st (regmap_read_main sched st addr).2.2 := by
  exact ⟨[Event.trans (Trans.mainRead addr)], rfl, rfl⟩

theorem rtc_update_traceExt (drv : DrvData) (sched : Sched) (st : BusState)
    (op : RtcOp) : TraceExt st (max77686_rtc_update drv sched st op).2 := by
  cases op <;> simp only [max77686_rtc_update] <;> split
  · exact traceExt_update_bits sched st _ _ _
  · exact traceExt_seq (traceExt_update_bits sched st _ _ _)
      ⟨[Event.sleep drv.delay (drv.delay * 2)], rfl, rfl⟩
  · exact traceExt_update_bits sched st _ _ _
  · exact traceExt_seq (traceExt_update_bits sched st _ _ _)
      ⟨[Event.sleep drv.delay (drv.delay * 2)], rfl, rfl⟩

theorem stop_alarm_traceExt (drv : DrvData) (sched : Sched) (st : BusState) :
    TraceExt st (max77686_rtc_stop_alarm drv sched st).2 := by
  have hu := rtc_update_traceExt drv sched st RtcOp.read
  simp only [max77686_rtc_stop_alarm]
  generalize hru : max77686_rtc_update drv sched st RtcOp.read = ru at hu ⊢
  split
  · exact hu
  next hc1 =>
    split
    · split
      · exact hu
      · have hw := traceExt_reg_write sched ru.2 (drv.map REG_RTC_AE1) 0
        generalize hrw : regmap_write sched ru.2 (drv.map REG_RTC_AE1) 0 = rr2 at hw ⊢
        split
        · exact traceExt_seq hu hw
        · exact traceExt_seq hu (traceExt_seq hw (rtc_update_traceExt drv sched rr2.2 RtcOp.write))
    · have hbr := traceExt_bulk_read sched ru.2 (drv.map REG_ALARM1_SEC) RTC_NR_TIME
      generalize hrr : regmap_bulk_read sched ru.2 (drv.map REG_ALARM1_SEC)
        RTC_NR_TIME = rr2 at hbr ⊢
      split
      · exact traceExt_seq hu hbr
      · have hbw := traceExt_bulk_write sched rr2.2.2 (drv.map REG_ALARM1_SEC)
          (rr2.2.1.map (fun b => b &&& (255 ^^^ ALARM_ENABLE_MASK)))
        generalize hrw : regmap_bulk_write sched rr2.2.2 (drv.map REG_ALARM1_SEC)
          (rr2.2.1.map (fun b => b &&& (255 ^^^ ALARM_ENABLE_MASK))) = rr3 at hbw ⊢
        split
        · exact traceExt_seq hu (traceExt_seq hbr hbw)
        · exact traceExt_seq hu (traceExt_seq hbr (traceExt_seq hbw
            (rtc_update_traceExt drv sched rr3.2 RtcOp.write)))

theorem start_alarm_traceExt (drv : DrvData) (sched : Sched) (st : BusState) :
    TraceExt st (max77686_rtc_start_alarm drv sched st).2 := by
  have hu := rtc_update_traceExt drv sched st RtcOp.read
  simp only [max77686_rtc_start_alarm]
  generalize hru : max77686_rtc_update drv sched st RtcOp.read = ru at hu ⊢
  split
  · exact hu
  next hc1 =>
    split
    · have hw := traceExt_reg_write sched ru.2 (drv.map REG_RTC_AE1) MAX77802_ALARM_ENABLE_VALUE
      generalize hrw : regmap_write sched ru.2 (drv.map REG_RTC_AE1)
        MAX77802_ALARM_ENABLE_VALUE = rr2 at hw ⊢
      split
      · exact traceExt_seq hu hw
      · exact traceExt_seq hu (traceExt_seq hw (rtc_update_traceExt drv sched rr2.2 RtcOp.write))
    · have hbr := traceExt_bulk_read sched ru.2 (drv.map REG_ALARM1_SEC) RTC_NR_TIME
      generalize hrr : regmap_bulk_read sched ru.2 (drv.map REG_ALARM1_SEC)
        RTC_NR_TIME = rr2 at hbr ⊢
      split
      · exact traceExt_seq hu hbr
      · have hbw := traceExt_bulk_write sched rr2.2.2 (drv.map REG_ALARM1_SEC)
          (startAlarmData rr2.2.1 drv.mask)
        generalize hrw : regmap_bulk_write sched rr2.2.2 (drv.map REG_ALARM1_SEC)
          (startAlarmData rr2.2.1 drv.mask) = rr3 at hbw ⊢
        split
        · exact traceExt_seq hu (traceExt_seq hbr hbw)
        · exact traceExt_seq hu (traceExt_seq hbr (traceExt_seq hbw
            (rtc_update_traceExt drv sched rr3.2 RtcOp.write)))

theorem lockCheck_append_free (m : List Event) (hm : lockFree m = true)
    (r : List Event) (d : Nat) (hd : d ≠ 0) :
    lockCheck (m ++ r) d = lockCheck r d := by
  induction m with
  | nil => rfl
  | cons e tl ih =>
    cases e with
    | lock => simp [lockFree] at hm
    | unlock => simp [lockFree] at hm
    | trans t =>
      have htl : lockFree tl = true := by
        simp only [lockFree, List.all_cons] at hm
        exact (Bool.and_eq_true_iff.mp hm).2
      have hne : (d != 0) = true := by simp [hd]
      show ((d != 0) && lockCheck (tl ++ r) d) = lockCheck r d
      rw [hne, Bool.true_and, ih htl]
    | sleep lo hi =>
      have htl : lockFree tl = true := by
        simp only [lockFree, List.all_cons] at hm
        exact (Bool.and_eq_true_iff.mp hm).2
      show lockCheck (tl ++ r) d = lockCheck r d
      exact ih htl

theorem lockCheck_of_wrapped (l : List Event) (hl : lockFree l = true) :
    lockCheck (Event.lock :: (l ++ [Event.unlock])) 0 = true := by
  show lockCheck (l ++ [Event.unlock]) 1 = true
  rw [lockCheck_append_free l hl [Event.unlock] 1 (by omega)]
  rfl

/-- Core locking fact: an operation that locked, extended the trace only by
transactions and sleeps, and unlocks, yields a well-locked trace. -/
theorem lockCheck_unlock_of_traceExt {st2 : BusState} {regs mainRegs : Nat → Nat}
    (h : TraceExt (lockSt regs mainRegs) st2) :
    lockCheck (unlockSt st2).trace 0 = true := by
  obtain ⟨l, e, f⟩ := h
  show lockCheck (st2.trace ++ [Event.unlock]) 0 = true
  rw [e]
  show lockCheck (Event.lock :: (l ++ [Event.unlock])) 0 = true
  exact lockCheck_of_wrapped l f

theorem read_time_lockCheck (drv : DrvData) (sched : Sched)
    (regs mainRegs : Nat → Nat) (tm0 : RtcTime) :
    lockCheck (max77686_rtc_read_time drv sched regs mainRegs tm0).2.2.trace 0 = true := by
  have hu := rtc_update_traceExt drv sched (lockSt regs mainRegs) RtcOp.read
  simp only [max77686_rtc_read_time]
  generalize hru : max77686_rtc_update drv sched (lockSt regs mainRegs) RtcOp.read = ru at hu ⊢
  split
  · exact lockCheck_unlock_of_traceExt hu
  · have hbr := traceExt_bulk_read sched ru.2 (drv.map REG_RTC_SEC) RTC_NR_TIME
    generalize hrr : regmap_bulk_read sched ru.2 (drv.map REG_RTC_SEC) RTC_NR_TIME = rr at hbr ⊢
    split
    · exact lockCheck_unlock_of_traceExt (traceExt_seq hu hbr)
    · exact lockCheck_unlock_of_traceExt (traceExt_seq hu hbr)

theorem set_time_lockCheck (drv : DrvData) (sched : Sched)
    (regs mainRegs : Nat → Nat) (tm : RtcTime) :
    lockCheck (max77686_rtc_set_time drv sched regs mainRegs tm).2.trace 0 = true := by
  simp only [max77686_rtc_set_time]
  split
  · rfl
  next hc0 =>
    have hbw := traceExt_bulk_write sched (lockSt regs mainRegs) (drv.map REG_RTC_SEC)
      (max77686_rtc_tm_to_data tm drv).2
    generalize hb : regmap_bulk_write sched (lockSt regs mainRegs) (drv.map REG_RTC_SEC)
      (max77686_rtc_tm_to_data tm drv).2 = rb at hbw ⊢
    split
    · exact lockCheck_unlock_of_traceExt hbw
    · exact lockCheck_unlock_of_traceExt (traceExt_seq hbw
        (rtc_update_traceExt drv sched rb.2 RtcOp.write))

theorem read_alarm_pending_lockCheck (drv : DrvData) (sched : Sched)
    {regs mainRegs : Nat → Nat} {st : BusState} (ret : Int) (a : RtcWkalrm)
    (h : TraceExt (lockSt regs mainRegs) st) :
    lockCheck (max77686_rtc_read_alarm_pending drv sched st ret a).2.2.trace 0 = true := by
  simp only [max77686_rtc_read_alarm_pending]
  split
  · exact lockCheck_unlock_of_traceExt h
  · have hm := traceExt_read_main sched st drv.alarm_pending_status_reg
    generalize hmm : regmap_read_main sched st drv.alarm_pending_status_reg = rm at hm ⊢
    split
    · exact lockCheck_unlock_of_traceExt (traceExt_seq h hm)
    · exact lockCheck_unlock_of_traceExt (traceExt_seq h hm)

theorem read_alarm_lockCheck (drv : DrvData) (sched : Sched)
    (regs mainRegs : Nat → Nat) (alrm0 : RtcWkalrm) :
    lockCheck (max77686_rtc_read_alarm drv sched regs mainRegs alrm0).2.2.trace 0 = true := by
  have hu := rtc_update_traceExt drv sched (lockSt regs mainRegs) RtcOp.read
  simp only [max77686_rtc_read_alarm]
  generalize hru : max77686_rtc_update drv sched (lockSt regs mainRegs) RtcOp.read = ru at hu ⊢
  split
  · exact lockCheck_unlock_of_traceExt hu
  · have hbr := traceExt_bulk_read sched ru.2 (drv.map REG_ALARM1_SEC) RTC_NR_TIME
    generalize hrr : regmap_bulk_read sched ru.2 (drv.map REG_ALARM1_SEC) RTC_NR_TIME = rr at hbr ⊢
    split
    · exact lockCheck_unlock_of_traceExt (traceExt_seq hu hbr)
    · split
      · split
        · exact lockCheck_unlock_of_traceExt (traceExt_seq hu hbr)
        · have hrd := traceExt_reg_read sched rr.2.2 (drv.map REG_RTC_AE1)
          generalize hrd2 : regmap_read sched rr.2.2 (drv.map REG_RTC_AE1) = rd at hrd ⊢
          split
          · exact lockCheck_unlock_of_traceExt (traceExt_seq hu (traceExt_seq hbr hrd))
          · exact read_alarm_pending_lockCheck drv sched rd.1 _
              (traceExt_seq hu (traceExt_seq hbr hrd))
      · exact read_alarm_pending_lockCheck drv sched rr.1 _ (traceExt_seq hu hbr)

theorem set_alarm_lockCheck (drv : DrvData) (sched : Sched)
    (regs mainRegs : Nat → Nat) (alrm : RtcWkalrm) :
    lockCheck (max77686_rtc_set_alarm drv sched regs mainRegs alrm).2.trace 0 = true := by
  simp only [max77686_rtc_set_alarm]
  split
  · rfl
  next hc0 =>
    have hst := stop_alarm_traceExt drv sched (lockSt regs mainRegs)
    generalize hs : max77686_rtc_stop_alarm drv sched (lockSt regs mainRegs) = rs at hst ⊢
    split
    · exact lockCheck_unlock_of_traceExt hst
    · have hbw := traceExt_bulk_write sched rs.2 (drv.map REG_ALARM1_SEC)
        (max77686_rtc_tm_to_data alrm.time drv).2
      generalize hb : regmap_bulk_write sched rs.2 (drv.map REG_ALARM1_SEC)
        (max77686_rtc_tm_to_data alrm.time drv).2 = rb at hbw ⊢
      split
      · exact lockCheck_unlock_of_traceExt (traceExt_seq hst hbw)
      · have hu := rtc_update_traceExt drv sched rb.2 RtcOp.write
        generalize hu2 : max77686_rtc_update drv sched rb.2 RtcOp.write = ruw at hu ⊢
        split
        · exact lockCheck_unlock_of_traceExt (traceExt_seq hst (traceExt_seq hbw hu))
        · split
          · exact lockCheck_unlock_of_traceExt (traceExt_seq hst (traceExt_seq hbw
              (traceExt_seq hu (start_alarm_traceExt drv sched ruw.2))))
          · exact lockCheck_unlock_of_traceExt (traceExt_seq hst (traceExt_seq hbw hu))

theorem alarm_irq_enable_lockCheck (drv : DrvData) (sched : Sched)
    (regs mainRegs : Nat → Nat) (enabled : Nat) :
    lockCheck (max77686_rtc_alarm_irq_enable drv sched regs mainRegs enabled).2.trace 0 = true := by
  simp only [max77686_rtc_alarm_irq_enable]
  split
  · exact lockCheck_unlock_of_traceExt (start_alarm_traceExt drv sched (lockSt regs mainRegs))
  · exact lockCheck_unlock_of_traceExt (stop_alarm_traceExt drv sched (lockSt regs mainRegs))

/-! ## Derived accounting facts -/

theorem stepSpec_first_failure {sched : Sched} {ret : Int} {nF k : Nat} {e : Int}
    (h1 : StepSpec sched 0 ret nF)
    (_hk : ∀ j, j < k → sched j = none) (he : sched k = some e) :
    nF ≤ k + 1 ∧ (nF = k + 1 → ret = e) := by
  obtain ⟨a1, s1, f1⟩ := h1
  constructor
  · by_cases hr : 0 ≤ ret
    · by_contra hgt
      push_neg at hgt
      have hnone := s1 hr k (Nat.zero_le k) (by omega)
      rw [hnone] at he
      exact Option.noConfusion he
    · have hneg : ret < 0 := by omega
      rcases f1 hneg with ⟨he2, hall⟩ | ⟨hlt, hlast, hall⟩
      · by_contra hgt
        push_neg at hgt
        have hnone := hall k (Nat.zero_le k) (by omega)
        rw [hnone] at he
        exact Option.noConfusion he
      · by_contra hgt
        push_neg at hgt
        have hnone := hall k (Nat.zero_le k) (by omega)
        rw [hnone] at he
        exact Option.noConfusion he
  · intro hnF
    by_cases hr : 0 ≤ ret
    · have hnone := s1 hr k (Nat.zero_le k) (by omega)
      rw [hnone] at he
      exact Option.noConfusion he
    · have hneg : ret < 0 := by omega
      rcases f1 hneg with ⟨he2, hall⟩ | ⟨hlt, hlast, hall⟩
      · have hnone := hall k (Nat.zero_le k) (by omega)
        rw [hnone] at he
        exact Option.noConfusion he
      · rw [hnF] at hlast
        have hkk : k + 1 - 1 = k := by omega
        rw [hkk] at hlast
        rw [he] at hlast
        exact ((Option.some.injEq e ret).mp hlast).symm

theorem stepSpec_error_source {sched : Sched} {ret : Int} {nF : Nat}
    (h : StepSpec sched 0 ret nF) (hneg : ret < 0) :
    ret = -EINVAL ∨ ∃ i, i < nF ∧ sched i = some ret := by
  obtain ⟨a1, s1, f1⟩ := h
  rcases f1 hneg with ⟨he, _⟩ | ⟨hlt, hlast, _⟩
  · exact Or.inl he
  · exact Or.inr ⟨nF - 1, by omega, hlast⟩

theorem errsNeg_schedW : ErrsNeg schedW := by
  intro i e h
  unfold schedW at h
  split at h
  · cases h
    omega
  · exact Option.noConfusion h

theorem regmap_update_bits_spec (sched : Sched) (st : BusState) (a m v : Nat) :
    regmap_update_bits sched st a m v =
      (busResult sched st.nCalls,
       if busResult sched st.nCalls < 0 then
         { st with nCalls := st.nCalls + 1,
                   trace := st.trace ++ [Event.trans (Trans.updateBits a m v)] }
       else
         { st with nCalls := st.nCalls + 1,
                   trace := st.trace ++ [Event.trans (Trans.updateBits a m v)],
                   regs := (fun x =>
                     if x = a then (st.regs x &&& (255 ^^^ m)) ||| (v &&& m)
                     else st.regs x) }) := by
  simp only [regmap_update_bits, recordCall]
  split
  next hc => rfl
  next hc => rfl

/-! ## Claim theorems -/

/-- C3: for every RTC class operation (read_time, set_time, read_alarm,
set_alarm, alarm_irq_enable), every register transaction the operation
performs happens while the instance mutex is held, and the mutex is
released before the operation returns (its event trace, checked from
depth 0, is well-locked). -/
theorem c3_mutex_serializes_operations (drv : DrvData) (sched : Sched)
    (regs mainRegs : Nat → Nat) (tm0 tm : RtcTime) (alrm0 alrm : RtcWkalrm)
    (en : Nat) :
    lockCheck (max77686_rtc_read_time drv sched regs mainRegs tm0).2.2.trace 0 = true ∧
    lockCheck (max77686_rtc_set_time drv sched regs mainRegs tm).2.trace 0 = true ∧
    lockCheck (max77686_rtc_read_alarm drv sched regs mainRegs alrm0).2.2.trace 0 = true ∧
    lockCheck (max77686_rtc_set_alarm drv sched regs mainRegs alrm).2.trace 0 = true ∧
    lockCheck (max77686_rtc_alarm_irq_enable drv sched regs mainRegs en).2.trace 0 = true := by
  refine ⟨?_, ?_, ?_, ?_, ?_⟩
  · exact read_time_lockCheck drv sched regs mainRegs tm0
  · exact set_time_lockCheck drv sched regs mainRegs tm
  · exact read_alarm_lockCheck drv sched regs mainRegs alrm0
  · exact set_alarm_lockCheck drv sched regs mainRegs alrm
  · exact alarm_irq_enable_lockCheck drv sched regs mainRegs en

/-- C5: no operation retries a failed transaction: if the calls before
call k succeed and call k fails with error e, then every class operation
makes at most k + 1 regmap calls, and if it reaches call k it stops there
and returns e. -/
theorem c5_no_retry (drv : DrvData) (sched : Sched) (regs mainRegs : Nat → Nat)
    (tm0 tm : RtcTime) (alrm0 alrm : RtcWkalrm) (en : Nat) (k : Nat) (e : Int)
    (hneg : ErrsNeg sched) (hk : ∀ j, j < k → sched j = none)
    (he : sched k = some e) :
    ((max77686_rtc_read_time drv sched regs mainRegs tm0).2.2.nCalls ≤ k + 1 ∧
      ((max77686_rtc_read_time drv sched regs mainRegs tm0).2.2.nCalls = k + 1 →
        (max77686_rtc_read_time drv sched regs mainRegs tm0).1 = e)) ∧
    ((max77686_rtc_set_time drv sched regs mainRegs tm).2.nCalls ≤ k + 1 ∧
      ((max77686_rtc_set_time drv sched regs mainRegs tm).2.nCalls = k + 1 →
        (max77686_rtc_set_time drv sched regs mainRegs tm).1 = e)) ∧
    ((max77686_rtc_read_alarm drv sched regs mainRegs alrm0).2.2.nCalls ≤ k + 1 ∧
      ((max77686_rtc_read_alarm drv sched regs mainRegs alrm0).2.2.nCalls = k + 1 →
        (max77686_rtc_read_alarm drv sched regs mainRegs alrm0).1 = e)) ∧
    ((max77686_rtc_set_alarm drv sched regs mainRegs alrm).2.nCalls ≤ k + 1 ∧
      ((max77686_rtc_set_alarm drv sched regs mainRegs alrm).2.nCalls = k + 1 →
        (max77686_rtc_set_alarm drv sched regs mainRegs alrm).1 = e)) ∧
    ((max77686_rtc_alarm_irq_enable drv sched regs mainRegs en).2.nCalls ≤ k + 1 ∧
      ((max77686_rtc_alarm_irq_enable drv sched regs mainRegs en).2.nCalls = k + 1 →
        (max77686_rtc_alarm_irq_enable drv sched regs mainRegs en).1 = e)) := by
  refine ⟨?_, ?_, ?_, ?_, ?_⟩
  · exact stepSpec_first_failure (read_time_stepSpec hneg drv regs mainRegs tm0) hk he
  · exact stepSpec_first_failure (set_time_stepSpec hneg drv regs mainRegs tm) hk he
  · exact stepSpec_first_failure (read_alarm_stepSpec hneg drv regs mainRegs alrm0) hk he
  · exact stepSpec_first_failure (set_alarm_stepSpec hneg drv regs mainRegs alrm) hk he
  · exact stepSpec_first_failure (alarm_irq_enable_stepSpec hneg drv regs mainRegs en) hk he

/-- C5 witness: with the schedule failing only on the first call with -5,
every operation on the concrete MAX77686 instance makes at most one call
and returns -5 when it made that call. -/
theorem c5_no_retry_witness :
    (ErrsNeg schedW ∧ (∀ j, j < 0 → schedW j = none) ∧ schedW 0 = some (-5)) ∧
    (((max77686_rtc_read_time drv686c schedW zeroRegs zeroRegs tmW).2.2.nCalls ≤ 0 + 1 ∧
      ((max77686_rtc_read_time drv686c schedW zeroRegs zeroRegs tmW).2.2.nCalls = 0 + 1 →
        (max77686_rtc_read_time drv686c schedW zeroRegs zeroRegs tmW).1 = -5)) ∧
    ((max77686_rtc_set_time drv686c schedW zeroRegs zeroRegs tmW).2.nCalls ≤ 0 + 1 ∧
      ((max77686_rtc_set_time drv686c schedW zeroRegs zeroRegs tmW).2.nCalls = 0 + 1 →
        (max77686_rtc_set_time drv686c schedW zeroRegs zeroRegs tmW).1 = -5)) ∧
    ((max77686_rtc_read_alarm drv686c schedW zeroRegs zeroRegs alrmW).2.2.nCalls ≤ 0 + 1 ∧
      ((max77686_rtc_read_alarm drv686c schedW zeroRegs zeroRegs alrmW).2.2.nCalls = 0 + 1 →
        (max77686_rtc_read_alarm drv686c schedW zeroRegs zeroRegs alrmW).1 = -5)) ∧
    ((max77686_rtc_set_alarm drv686c schedW zeroRegs zeroRegs alrmW).2.nCalls ≤ 0 + 1 ∧
      ((max77686_rtc_set_alarm drv686c schedW zeroRegs zeroRegs alrmW).2.nCalls = 0 + 1 →
        (max77686_rtc_set_alarm drv686c schedW zeroRegs zeroRegs alrmW).1 = -5)) ∧
    ((max77686_rtc_alarm_irq_enable drv686c schedW zeroRegs zeroRegs 1).2.nCalls ≤ 0 + 1 ∧
      ((max77686_rtc_alarm_irq_enable drv686c schedW zeroRegs zeroRegs 1).2.nCalls = 0 + 1 →
        (max77686_rtc_alarm_irq_enable drv686c schedW zeroRegs zeroRegs 1).1 = -5))) :=
  ⟨⟨errsNeg_schedW, fun j hj => absurd hj (Nat.not_lt_zero j), rfl⟩,
   c5_no_retry drv686c schedW zeroRegs zeroRegs tmW tmW alrmW alrmW 1 0 (-5)
     errsNeg_schedW (fun j hj => absurd hj (Nat.not_lt_zero j)) rfl⟩

/-- C2: every RTC update commit (max77686_rtc_update) performs exactly one
read/modify/write transaction on the update register, setting bit UDR for
a write operation and bit RBUDR for a read operation; on success only it
is followed by one sleep whose duration lies between the model's delay and
twice that delay, and on failure no sleep occurs and the register file is
unchanged; the delay is 16000 us for MAX77686/MAX77620/MAX77714 and 200 us
for MAX77802. -/
theorem c2_update_commit (drv : DrvData) (sched : Sched) (st : BusState)
    (H6 : Max77686Header) (H8 : Max77802Header) :
    ((max77686_rtc_update drv sched st RtcOp.write).2.trace
        = st.trace
          ++ [Event.trans (Trans.updateBits (drv.map REG_RTC_UPDATE0) RTC_UDR_MASK RTC_UDR_MASK)]
          ++ (if (max77686_rtc_update drv sched st RtcOp.write).1 < 0 then []
              else [Event.sleep drv.delay (drv.delay * 2)])) ∧
    ((max77686_rtc_update drv sched st RtcOp.write).2.regs
        = if (max77686_rtc_update drv sched st RtcOp.write).1 < 0 then st.regs
          else (fun a => if a = drv.map REG_RTC_UPDATE0
            then (st.regs a &&& (255 ^^^ RTC_UDR_MASK)) ||| (RTC_UDR_MASK &&& RTC_UDR_MASK)
            else st.regs a)) ∧
    ((max77686_rtc_update drv sched st RtcOp.read).2.trace
        = st.trace
          ++ [Event.trans (Trans.updateBits (drv.map REG_RTC_UPDATE0) RTC_RBUDR_MASK RTC_RBUDR_MASK)]
          ++ (if (max77686_rtc_update drv sched st RtcOp.read).1 < 0 then []
              else [Event.sleep drv.delay (drv.delay * 2)])) ∧
    ((max77686_rtc_update drv sched st RtcOp.read).2.regs
        = if (max77686_rtc_update drv sched st RtcOp.read).1 < 0 then st.regs
          else (fun a => if a = drv.map REG_RTC_UPDATE0
            then (st.regs a &&& (255 ^^^ RTC_RBUDR_MASK)) ||| (RTC_RBUDR_MASK &&& RTC_RBUDR_MASK)
            else st.regs a)) ∧
    (max77686_drv_data H6).delay = 16000 ∧
    (max77620_drv_data H6).delay = 16000 ∧
    (max77714_drv_data H6).delay = 16000 ∧
    (max77802_drv_data H8).delay = 200 := by
  refine ⟨?_, ?_, ?_, ?_, rfl, rfl, rfl, rfl⟩ <;>
    simp only [max77686_rtc_update, RTC_UDR_MASK, RTC_RBUDR_MASK, regmap_update_bits_spec] <;>
    by_cases hc : busResult sched st.nCalls < 0 <;>
    simp [hc, List.append_assoc]

/-- C1 counterexample: on the MAX77686 model, set_time with tm_year = 50
returns the error -22 (-EINVAL) although it made no regmap call at all
(the schedule never fails), so this error code is not the failure code of
any bus transaction: the driver introduced it itself. -/
theorem c1_counterexample :
    (max77686_rtc_set_time drv686c allOk zeroRegs zeroRegs tm50).1 = -22 ∧
    (max77686_rtc_set_time drv686c allOk zeroRegs zeroRegs tm50).2.nCalls = 0 ∧
    (∀ i, allOk i = none) := by
  refine ⟨rfl, rfl, fun i => rfl⟩

/-- C1 (amended): every negative return code of a class operation is
either the unchanged failure code of one of the bus transactions that the
operation attempted, or the driver-generated -EINVAL (rejecting years
before 2000 on models without a separate alarm enable register, or a
missing alarm enable register mapping). -/
theorem c1_error_codes (drv : DrvData) (sched : Sched) (regs mainRegs : Nat → Nat)
    (tm0 tm : RtcTime) (alrm0 alrm : RtcWkalrm) (en : Nat) (hneg : ErrsNeg sched) :
    ((max77686_rtc_read_time drv sched regs mainRegs tm0).1 < 0 →
      (max77686_rtc_read_time drv sched regs mainRegs tm0).1 = -EINVAL ∨
      ∃ i, i < (max77686_rtc_read_time drv sched regs mainRegs tm0).2.2.nCalls ∧
        sched i = some (max77686_rtc_read_time drv sched regs mainRegs tm0).1) ∧
    ((max77686_rtc_set_time drv sched regs mainRegs tm).1 < 0 →
      (max77686_rtc_set_time drv sched regs mainRegs tm).1 = -EINVAL ∨
      ∃ i, i < (max77686_rtc_set_time drv sched regs mainRegs tm).2.nCalls ∧
        sched i = some (max77686_rtc_set_time drv sched regs mainRegs tm).1) ∧
    ((max77686_rtc_read_alarm drv sched regs mainRegs alrm0).1 < 0 →
      (max77686_rtc_read_alarm drv sched regs mainRegs alrm0).1 = -EINVAL ∨
      ∃ i, i < (max77686_rtc_read_alarm drv sched regs mainRegs alrm0).2.2.nCalls ∧
        sched i = some (max77686_rtc_read_alarm drv sched regs mainRegs alrm0).1) ∧
    ((max77686_rtc_set_alarm drv sched regs mainRegs alrm).1 < 0 →
      (max77686_rtc_set_alarm drv sched regs mainRegs alrm).1 = -EINVAL ∨
      ∃ i, i < (max77686_rtc_set_alarm drv sched regs mainRegs alrm).2.nCalls ∧
        sched i = some (max77686_rtc_set_alarm drv sched regs mainRegs alrm).1) ∧
    ((max77686_rtc_alarm_irq_enable drv sched regs mainRegs en).1 < 0 →
      (max77686_rtc_alarm_irq_enable drv sched regs mainRegs en).1 = -EINVAL ∨
      ∃ i, i < (max77686_rtc_alarm_irq_enable drv sched regs mainRegs en).2.nCalls ∧
        sched i = some (max77686_rtc_alarm_irq_enable drv sched regs mainRegs en).1) := by
  refine ⟨?_, ?_, ?_, ?_, ?_⟩
  · exact fun hr => stepSpec_error_source (read_time_stepSpec hneg drv regs mainRegs tm0) hr
  · exact fun hr => stepSpec_error_source (set_time_stepSpec hneg drv regs mainRegs tm) hr
  · exact fun hr => stepSpec_error_source (read_alarm_stepSpec hneg drv regs mainRegs alrm0) hr
  · exact fun hr => stepSpec_error_source (set_alarm_stepSpec hneg drv regs mainRegs alrm) hr
  · exact fun hr => stepSpec_error_source (alarm_irq_enable_stepSpec hneg drv regs mainRegs en) hr

/-- C1 witness: the amended statement instantiated on the concrete
MAX77686 instance with the schedule failing on the first call. -/
theorem c1_error_codes_witness :
    ErrsNeg schedW ∧
    (((max77686_rtc_read_time drv686c schedW zeroRegs zeroRegs tmW).1 < 0 →
      (max77686_rtc_read_time drv686c schedW zeroRegs zeroRegs tmW).1 = -EINVAL ∨
      ∃ i, i < (max77686_rtc_read_time drv686c schedW zeroRegs zeroRegs tmW).2.2.nCalls ∧
        schedW i = some (max77686_rtc_read_time drv686c schedW zeroRegs zeroRegs tmW).1) ∧
    ((max77686_rtc_set_time drv686c schedW zeroRegs zeroRegs tmW).1 < 0 →
      (max77686_rtc_set_time drv686c schedW zeroRegs zeroRegs tmW).1 = -EINVAL ∨
      ∃ i, i < (max77686_rtc_set_time drv686c schedW zeroRegs zeroRegs tmW).2.nCalls ∧
        schedW i = some (max77686_rtc_set_time drv686c schedW zeroRegs zeroRegs tmW).1) ∧
    ((max77686_rtc_read_alarm drv686c schedW zeroRegs zeroRegs alrmW).1 < 0 →
      (max77686_rtc_read_alarm drv686c schedW zeroRegs zeroRegs alrmW).1 = -EINVAL ∨
      ∃ i, i < (max77686_rtc_read_alarm drv686c schedW zeroRegs zeroRegs alrmW).2.2.nCalls ∧
        schedW i = some (max77686_rtc_read_alarm drv686c schedW zeroRegs zeroRegs alrmW).1) ∧
    ((max77686_rtc_set_alarm drv686c schedW zeroRegs zeroRegs alrmW).1 < 0 →
      (max77686_rtc_set_alarm drv686c schedW zeroRegs zeroRegs alrmW).1 = -EINVAL ∨
      ∃ i, i < (max77686_rtc_set_alarm drv686c schedW zeroRegs zeroRegs alrmW).2.nCalls ∧
        schedW i = some (max77686_rtc_set_alarm drv686c schedW zeroRegs zeroRegs alrmW).1) ∧
    ((max77686_rtc_alarm_irq_enable drv686c schedW zeroRegs zeroRegs 1).1 < 0 →
      (max77686_rtc_alarm_irq_enable drv686c schedW zeroRegs zeroRegs 1).1 = -EINVAL ∨
      ∃ i, i < (max77686_rtc_alarm_irq_enable drv686c schedW zeroRegs zeroRegs 1).2.nCalls ∧
        schedW i = some (max77686_rtc_alarm_irq_enable drv686c schedW zeroRegs zeroRegs 1).1)) :=
  ⟨errsNeg_schedW,
   c1_error_codes drv686c schedW zeroRegs zeroRegs tmW tmW alrmW alrmW 1 errsNeg_schedW⟩

theorem ne_of_lt256 (x : Nat) (h : x < 256) : x ≠ REG_RTC_NONE := by
  intro he
  rw [he] at h
  simp only [REG_RTC_NONE] at h
  omega

/-- C7: the register-offset-to-address maps are fixed constants (pure
functions in this embedding, which no operation can modify): every offset
from REG_RTC_CONTROLM (0) through REG_ALARM2_DATE (24) is assigned a chip
register address, distinct from the sentinel REG_RTC_NONE, by both maps;
at offset REG_RTC_AE1 (25) the MAX77686 map assigns REG_RTC_NONE while the
MAX77802 map assigns the MAX77802_RTC_AE1 address. -/
theorem c7_register_maps (H6 : Max77686Header) (hv6 : H6.Valid)
    (H8 : Max77802Header) (hv8 : H8.Valid) :
    (∀ off, off < 25 → max77686_map H6 off ≠ REG_RTC_NONE ∧
                       max77802_map H8 off ≠ REG_RTC_NONE) ∧
    max77686_map H6 REG_RTC_AE1 = REG_RTC_NONE ∧
    max77802_map H8 REG_RTC_AE1 = H8.rtc_ae1 := by
  obtain ⟨b1, b2, b3, b4, b5, b6, b7, b8, b9, b10, b11, b12, b13, b14, b15, b16,
    b17, b18, b19, b20, b21, b22, b23, b24, b25, b26, hdis6⟩ := hv6
  obtain ⟨d1, d2, d3, d4, d5, d6, d7, d8, d9, d10, d11, d12, d13, d14, d15, d16,
    d17, d18, d19, d20, d21, d22, d23, d24, d25, d26, d27, hdis8⟩ := hv8
  refine ⟨?_, rfl, rfl⟩
  intro off hoff
  interval_cases off
  · exact ⟨ne_of_lt256 _ b1, ne_of_lt256 _ d1⟩
  · exact ⟨ne_of_lt256 _ b2, ne_of_lt256 _ d2⟩
  · exact ⟨ne_of_lt256 _ b3, ne_of_lt256 _ d3⟩
  · exact ⟨ne_of_lt256 _ b4, ne_of_lt256 _ d4⟩
  · exact ⟨ne_of_lt256 _ b5, ne_of_lt256 _ d5⟩
  · exact ⟨ne_of_lt256 _ b6, ne_of_lt256 _ d6⟩
  · exact ⟨ne_of_lt256 _ b7, ne_of_lt256 _ d7⟩
  · exact ⟨ne_of_lt256 _ b8, ne_of_lt256 _ d8⟩
  · exact ⟨ne_of_lt256 _ b9, ne_of_lt256 _ d9⟩
  · exact ⟨ne_of_lt256 _ b10, ne_of_lt256 _ d10⟩
  · exact ⟨ne_of_lt256 _ b11, ne_of_lt256 _ d11⟩
  · exact ⟨ne_of_lt256 _ b12, ne_of_lt256 _ d12⟩
  · exact ⟨ne_of_lt256 _ b13, ne_of_lt256 _ d13⟩
  · exact ⟨ne_of_lt256 _ b14, ne_of_lt256 _ d14⟩
  · exact ⟨ne_of_lt256 _ b15, ne_of_lt256 _ d15⟩
  · exact ⟨ne_of_lt256 _ b16, ne_of_lt256 _ d16⟩
  · exact ⟨ne_of_lt256 _ b17, ne_of_lt256 _ d17⟩
  · exact ⟨ne_of_lt256 _ b18, ne_of_lt256 _ d18⟩
  · exact ⟨ne_of_lt256 _ b19, ne_of_lt256 _ d19⟩
  · exact ⟨ne_of_lt256 _ b20, ne_of_lt256 _ d20⟩
  · exact ⟨ne_of_lt256 _ b21, ne_of_lt256 _ d21⟩
  · exact ⟨ne_of_lt256 _ b22, ne_of_lt256 _ d22⟩
  · exact ⟨ne_of_lt256 _ b23, ne_of_lt256 _ d23⟩
  · exact ⟨ne_of_lt256 _ b24, ne_of_lt256 _ d24⟩
  · exact ⟨ne_of_lt256 _ b25, ne_of_lt256 _ d25⟩

/-- C7 witness: the map properties instantiated at the concrete valid
address assignments. -/
theorem c7_register_maps_witness :
    H686c.Valid ∧ H802c.Valid ∧
    ((∀ off, off < 25 → max77686_map H686c off ≠ REG_RTC_NONE ∧
                        max77802_map H802c off ≠ REG_RTC_NONE) ∧
     max77686_map H686c REG_RTC_AE1 = REG_RTC_NONE ∧
     max77802_map H802c REG_RTC_AE1 = H802c.rtc_ae1) :=
  ⟨by unfold Max77686Header.Valid; decide, by unfold Max77802Header.Valid; decide,
   c7_register_maps H686c (by unfold Max77686Header.Valid; decide)
     H802c (by unfold Max77802Header.Valid; decide)⟩

/-! ## Encode/decode field lemmas -/

theorem data_to_tm_explicit (a b c d e f g : Nat) (drv : DrvData) :
    max77686_rtc_data_to_tm [a, b, c, d, e, f, g] drv =
      { tm_sec := ((a &&& drv.mask : Nat) : Int)
        tm_min := ((b &&& drv.mask : Nat) : Int)
        tm_hour := ((c &&& 31 : Nat) : Int)
        tm_wday := ((ffs (d &&& drv.mask) : Nat) : Int) - 1
        tm_mday := ((g &&& 31 : Nat) : Int)
        tm_mon := ((e &&& 15 : Nat) : Int) - 1
        tm_year := if drv.alarm_enable_reg
          then ((f &&& drv.mask : Nat) : Int)
          else ((f &&& drv.mask : Nat) : Int) + 100
        tm_yday := 0
        tm_isdst := 0 } := rfl

theorem decode_byte_small {x : Int} {m : Nat} (hm : m = 127 ∨ m = 255)
    (h0 : 0 ≤ x) (h1 : x < 128) : ((u8of x &&& m : Nat) : Int) = x := by
  have hu : u8of x = x.toNat := by unfold u8of; omega
  rcases hm with hm | hm <;> subst hm <;> rw [hu]
  · have h2 : x.toNat < 2 ^ 7 := by omega
    have h3 := Nat.and_pow_two_sub_one_of_lt_two_pow h2
    norm_num at h3
    rw [h3]
    omega
  · have h2 : x.toNat < 2 ^ 8 := by omega
    have h3 := Nat.and_pow_two_sub_one_of_lt_two_pow h2
    norm_num at h3
    rw [h3]
    omega

theorem decode_byte_31 {x : Int} (h0 : 0 ≤ x) (h1 : x < 32) :
    ((u8of x &&& 31 : Nat) : Int) = x := by
  have hu : u8of x = x.toNat := by unfold u8of; omega
  rw [hu]
  have h2 : x.toNat < 2 ^ 5 := by omega
  have h3 := Nat.and_pow_two_sub_one_of_lt_two_pow h2
  norm_num at h3
  rw [h3]
  omega

theorem decode_byte_15 {x : Int} (h0 : 0 ≤ x) (h1 : x < 16) :
    ((u8of x &&& 15 : Nat) : Int) = x := by
  have hu : u8of x = x.toNat := by unfold u8of; omega
  rw [hu]
  have h2 : x.toNat < 2 ^ 4 := by omega
  have h3 := Nat.and_pow_two_sub_one_of_lt_two_pow h2
  norm_num at h3
  rw [h3]
  omega

theorem decode_wday_nat (n : Nat) (hn : n ≤ 6) (m : Nat) (hm : m = 127 ∨ m = 255) :
    ffs ((1 <<< n) % 256 &&& m) = n + 1 := by
  rcases hm with hm | hm <;> subst hm <;> interval_cases n <;> rfl

theorem decode_year686 {y : Int} (h0 : 100 ≤ y) (h1 : y ≤ 199) :
    (((if y > 100 then u8of (y - 100) else 0) &&& 127 : Nat) : Int) + 100 = y := by
  by_cases hc : y > 100
  · rw [if_pos hc]
    have hu : u8of (y - 100) = (y - 100).toNat := by unfold u8of; omega
    rw [hu]
    have h2 : (y - 100).toNat < 2 ^ 7 := by omega
    have h3 := Nat.and_pow_two_sub_one_of_lt_two_pow h2
    norm_num at h3
    rw [h3]
    omega
  · rw [if_neg hc]
    have hz : (0 &&& 127 : Nat) = 0 := rfl
    rw [hz]
    omega

theorem tm_to_data_686 (H : Max77686Header) (tm : RtcTime) (hy : ¬ tm.tm_year < 100) :
    max77686_rtc_tm_to_data tm (max77686_drv_data H) =
      ((0 : Int), [u8of tm.tm_sec, u8of tm.tm_min, u8of tm.tm_hour,
           (1 <<< tm.tm_wday.toNat) % 256, u8of (tm.tm_mon + 1),
           if tm.tm_year > 100 then u8of (tm.tm_year - 100) else 0,
           u8of tm.tm_mday]) := by
  simp only [max77686_rtc_tm_to_data, max77686_drv_data, Bool.false_eq_true, if_false]
  rw [if_neg hy]

theorem tm_to_data_802 (H : Max77802Header) (tm : RtcTime) :
    max77686_rtc_tm_to_data tm (max77802_drv_data H) =
      ((0 : Int), [u8of tm.tm_sec, u8of tm.tm_min, u8of tm.tm_hour,
           (1 <<< tm.tm_wday.toNat) % 256, u8of (tm.tm_mon + 1),
           u8of tm.tm_year, u8of tm.tm_mday]) := rfl

/-- C4: for every rtc_time with in-range fields (and tm_year between 100
and 199 on models without a separate alarm enable register, between 0 and
127 on MAX77802), encoding with max77686_rtc_tm_to_data succeeds and
decoding the produced seven bytes with max77686_rtc_data_to_tm returns the
original tm_sec, tm_min, tm_hour, tm_wday, tm_mday, tm_mon and tm_year. -/
theorem c4_roundtrip (H6 : Max77686Header) (H8 : Max77802Header) (tm : RtcTime)
    (hsec0 : 0 ≤ tm.tm_sec) (hsec1 : tm.tm_sec ≤ 59)
    (hmin0 : 0 ≤ tm.tm_min) (hmin1 : tm.tm_min ≤ 59)
    (hhour0 : 0 ≤ tm.tm_hour) (hhour1 : tm.tm_hour ≤ 23)
    (hwday0 : 0 ≤ tm.tm_wday) (hwday1 : tm.tm_wday ≤ 6)
    (hmday0 : 1 ≤ tm.tm_mday) (hmday1 : tm.tm_mday ≤ 31)
    (hmon0 : 0 ≤ tm.tm_mon) (hmon1 : tm.tm_mon ≤ 11) :
    (100 ≤ tm.tm_year → tm.tm_year ≤ 199 →
      (max77686_rtc_tm_to_data tm (max77686_drv_data H6)).1 = 0 ∧
      ((max77686_rtc_data_to_tm (max77686_rtc_tm_to_data tm (max77686_drv_data H6)).2
          (max77686_drv_data H6)).tm_sec = tm.tm_sec ∧
       (max77686_rtc_data_to_tm (max77686_rtc_tm_to_data tm (max77686_drv_data H6)).2
          (max77686_drv_data H6)).tm_min = tm.tm_min ∧
       (max77686_rtc_data_to_tm (max77686_rtc_tm_to_data tm (max77686_drv_data H6)).2
          (max77686_drv_data H6)).tm_hour = tm.tm_hour ∧
       (max77686_rtc_data_to_tm (max77686_rtc_tm_to_data tm (max77686_drv_data H6)).2
          (max77686_drv_data H6)).tm_wday = tm.tm_wday ∧
       (max77686_rtc_data_to_tm (max77686_rtc_tm_to_data tm (max77686_drv_data H6)).2
          (max77686_drv_data H6)).tm_mday = tm.tm_mday ∧
       (max77686_rtc_data_to_tm (max77686_rtc_tm_to_data tm (max77686_drv_data H6)).2
          (max77686_drv_data H6)).tm_mon = tm.tm_mon ∧
       (max77686_rtc_data_to_tm (max77686_rtc_tm_to_data tm (max77686_drv_data H6)).2
          (max77686_drv_data H6)).tm_year = tm.tm_year)) ∧
    (0 ≤ tm.tm_year → tm.tm_year ≤ 127 →
      (max77686_rtc_tm_to_data tm (max77802_drv_data H8)).1 = 0 ∧
      ((max77686_rtc_data_to_tm (max77686_rtc_tm_to_data tm (max77802_drv_data H8)).2
          (max77802_drv_data H8)).tm_sec = tm.tm_sec ∧
       (max77686_rtc_data_to_tm (max77686_rtc_tm_to_data tm (max77802_drv_data H8)).2
          (max77802_drv_data H8)).tm_min = tm.tm_min ∧
       (max77686_rtc_data_to_tm (max77686_rtc_tm_to_data tm (max77802_drv_data H8)).2
          (max77802_drv_data H8)).tm_hour = tm.tm_hour ∧
       (max77686_rtc_data_to_tm (max77686_rtc_tm_to_data tm (max77802_drv_data H8)).2
          (max77802_drv_data H8)).tm_wday = tm.tm_wday ∧
       (max77686_rtc_data_to_tm (max77686_rtc_tm_to_data tm (max77802_drv_data H8)).2
          (max77802_drv_data H8)).tm_mday = tm.tm_mday ∧
       (max77686_rtc_data_to_tm (max77686_rtc_tm_to_data tm (max77802_drv_data H8)).2
          (max77802_drv_data H8)).tm_mon = tm.tm_mon ∧
       (max77686_rtc_data_to_tm (max77686_rtc_tm_to_data tm (max77802_drv_data H8)).2
          (max77802_drv_data H8)).tm_year = tm.tm_year)) := by
  constructor
  · intro hy0 hy1
    rw [tm_to_data_686 H6 tm (by omega)]
    refine ⟨rfl, ?_⟩
    rw [data_to_tm_explicit]
    refine ⟨?_, ?_, ?_, ?_, ?_, ?_, ?_⟩
    · show ((u8of tm.tm_sec &&& 127 : Nat) : Int) = tm.tm_sec
      exact decode_byte_small (Or.inl rfl) hsec0 (by omega)
    · show ((u8of tm.tm_min &&& 127 : Nat) : Int) = tm.tm_min
      exact decode_byte_small (Or.inl rfl) hmin0 (by omega)
    · show ((u8of tm.tm_hour &&& 31 : Nat) : Int) = tm.tm_hour
      exact decode_byte_31 hhour0 (by omega)
    · show ((ffs ((1 <<< tm.tm_wday.toNat) % 256 &&& 127) : Nat) : Int) - 1 = tm.tm_wday
      rw [decode_wday_nat tm.tm_wday.toNat (by omega) 127 (Or.inl rfl)]
      omega
    · show ((u8of tm.tm_mday &&& 31 : Nat) : Int) = tm.tm_mday
      exact decode_byte_31 (by omega) (by omega)
    · show ((u8of (tm.tm_mon + 1) &&& 15 : Nat) : Int) - 1 = tm.tm_mon
      rw [decode_byte_15 (show (0:Int) ≤ tm.tm_mon + 1 by omega)
        (show tm.tm_mon + 1 < 16 by omega)]
      omega
    · show (((if tm.tm_year > 100 then u8of (tm.tm_year - 100) else 0) &&& 127 : Nat) : Int)
        + 100 = tm.tm_year
      exact decode_year686 hy0 hy1
  · intro hy0 hy1
    rw [tm_to_data_802 H8 tm]
    refine ⟨rfl, ?_⟩
    rw [data_to_tm_explicit]
    refine ⟨?_, ?_, ?_, ?_, ?_, ?_, ?_⟩
    · show ((u8of tm.tm_sec &&& 255 : Nat) : Int) = tm.tm_sec
      exact decode_byte_small (Or.inr rfl) hsec0 (by omega)
    · show ((u8of tm.tm_min &&& 255 : Nat) : Int) = tm.tm_min
      exact decode_byte_small (Or.inr rfl) hmin0 (by omega)
    · show ((u8of tm.tm_hour &&& 31 : Nat) : Int) = tm.tm_hour
      exact decode_byte_31 hhour0 (by omega)
    · show ((ffs ((1 <<< tm.tm_wday.toNat) % 256 &&& 255) : Nat) : Int) - 1 = tm.tm_wday
      rw [decode_wday_nat tm.tm_wday.toNat (by omega) 255 (Or.inr rfl)]
      omega
    · show ((u8of tm.tm_mday &&& 31 : Nat) : Int) = tm.tm_mday
      exact decode_byte_31 (by omega) (by omega)
    · show ((u8of (tm.tm_mon + 1) &&& 15 : Nat) : Int) - 1 = tm.tm_mon
      rw [decode_byte_15 (show (0:Int) ≤ tm.tm_mon + 1 by omega)
        (show tm.tm_mon + 1 < 16 by omega)]
      omega
    · show ((u8of tm.tm_year &&& 255 : Nat) : Int) = tm.tm_year
      exact decode_byte_small (Or.inr rfl) hy0 (by omega)

/-- C4 witness: the round trip instantiated at a concrete in-range time
(year 125, in range for both model families). -/
theorem c4_roundtrip_witness :
    (0 ≤ tmW.tm_sec ∧ tmW.tm_sec ≤ 59 ∧ 0 ≤ tmW.tm_min ∧ tmW.tm_min ≤ 59 ∧
     0 ≤ tmW.tm_hour ∧ tmW.tm_hour ≤ 23 ∧ 0 ≤ tmW.tm_wday ∧ tmW.tm_wday ≤ 6 ∧
     1 ≤ tmW.tm_mday ∧ tmW.tm_mday ≤ 31 ∧ 0 ≤ tmW.tm_mon ∧ tmW.tm_mon ≤ 11) ∧
    ((100 ≤ tmW.tm_year → tmW.tm_year ≤ 199 →
      (max77686_rtc_tm_to_data tmW (max77686_drv_data H686c)).1 = 0 ∧
      ((max77686_rtc_data_to_tm (max77686_rtc_tm_to_data tmW (max77686_drv_data H686c)).2
          (max77686_drv_data H686c)).tm_sec = tmW.tm_sec ∧
       (max77686_rtc_data_to_tm (max77686_rtc_tm_to_data tmW (max77686_drv_data H686c)).2
          (max77686_drv_data H686c)).tm_min = tmW.tm_min ∧
       (max77686_rtc_data_to_tm (max77686_rtc_tm_to_data tmW (max77686_drv_data H686c)).2
          (max77686_drv_data H686c)).tm_hour = tmW.tm_hour ∧
       (max77686_rtc_data_to_tm (max77686_rtc_tm_to_data tmW (max77686_drv_data H686c)).2
          (max77686_drv_data H686c)).tm_wday = tmW.tm_wday ∧
       (max77686_rtc_data_to_tm (max77686_rtc_tm_to_data tmW (max77686_drv_data H686c)).2
          (max77686_drv_data H686c)).tm_mday = tmW.tm_mday ∧
       (max77686_rtc_data_to_tm (max77686_rtc_tm_to_data tmW (max77686_drv_data H686c)).2
          (max77686_drv_data H686c)).tm_mon = tmW.tm_mon ∧
       (max77686_rtc_data_to_tm (max77686_rtc_tm_to_data tmW (max77686_drv_data H686c)).2
          (max77686_drv_data H686c)).tm_year = tmW.tm_year)) ∧
     (0 ≤ tmW.tm_year → tmW.tm_year ≤ 127 →
      (max77686_rtc_tm_to_data tmW (max77802_drv_data H802c)).1 = 0 ∧
      ((max77686_rtc_data_to_tm (max77686_rtc_tm_to_data tmW (max77802_drv_data H802c)).2
          (max77802_drv_data H802c)).tm_sec = tmW.tm_sec ∧
       (max77686_rtc_data_to_tm (max77686_rtc_tm_to_data tmW (max77802_drv_data H802c)).2
          (max77802_drv_data H802c)).tm_min = tmW.tm_min ∧
       (max77686_rtc_data_to_tm (max77686_rtc_tm_to_data tmW (max77802_drv_data H802c)).2
          (max77802_drv_data H802c)).tm_hour = tmW.tm_hour ∧
       (max77686_rtc_data_to_tm (max77686_rtc_tm_to_data tmW (max77802_drv_data H802c)).2
          (max77802_drv_data H802c)).tm_wday = tmW.tm_wday ∧
       (max77686_rtc_data_to_tm (max77686_rtc_tm_to_data tmW (max77802_drv_data H802c)).2
          (max77802_drv_data H802c)).tm_mday = tmW.tm_mday ∧
       (max77686_rtc_data_to_tm (max77686_rtc_tm_to_data tmW (max77802_drv_data H802c)).2
          (max77802_drv_data H802c)).tm_mon = tmW.tm_mon ∧
       (max77686_rtc_data_to_tm (max77686_rtc_tm_to_data tmW (max77802_drv_data H802c)).2
          (max77802_drv_data H802c)).tm_year = tmW.tm_year))) :=
  ⟨by refine ⟨?_, ?_, ?_, ?_, ?_, ?_, ?_, ?_, ?_, ?_, ?_, ?_⟩ <;> decide,
   c4_roundtrip H686c H802c tmW (by decide) (by decide) (by decide) (by decide)
     (by decide) (by decide) (by decide) (by decide) (by decide) (by decide)
     (by decide) (by decide)⟩

/-- C9: on models without a separate alarm enable register, set_time and
set_alarm called with tm_year < 100 return -EINVAL before taking the
mutex and before any register transaction: the returned state has made no
regmap call, has an empty trace (no lock event), and carries the register
files unchanged. -/
theorem c9_invalid_year_is_atomic (drv : DrvData) (sched : Sched)
    (regs mainRegs : Nat → Nat) (tm : RtcTime) (alrm : RtcWkalrm)
    (hae : drv.alarm_enable_reg = false)
    (hy1 : tm.tm_year < 100) (hy2 : alrm.time.tm_year < 100) :
    max77686_rtc_set_time drv sched regs mainRegs tm
      = (-EINVAL, { regs := regs, mainRegs := mainRegs, nCalls := 0, trace := [] }) ∧
    max77686_rtc_set_alarm drv sched regs mainRegs alrm
      = (-EINVAL, { regs := regs, mainRegs := mainRegs, nCalls := 0, trace := [] }) := by
  constructor
  · simp only [max77686_rtc_set_time, max77686_rtc_tm_to_data, hae,
      Bool.false_eq_true, if_false]
    rw [if_pos hy1]
    norm_num [EINVAL]
  · simp only [max77686_rtc_set_alarm, max77686_rtc_tm_to_data, hae,
      Bool.false_eq_true, if_false]
    rw [if_pos hy2]
    norm_num [EINVAL]

/-- C9 witness: the atomic failure instantiated on the concrete MAX77686
instance with year 50. -/
theorem c9_invalid_year_is_atomic_witness :
    (drv686c.alarm_enable_reg = false ∧ tm50.tm_year < 100 ∧
      alrm50.time.tm_year < 100) ∧
    (max77686_rtc_set_time drv686c allOk zeroRegs zeroRegs tm50
      = (-EINVAL, { regs := zeroRegs, mainRegs := zeroRegs, nCalls := 0, trace := [] }) ∧
     max77686_rtc_set_alarm drv686c allOk zeroRegs zeroRegs alrm50
      = (-EINVAL, { regs := zeroRegs, mainRegs := zeroRegs, nCalls := 0, trace := [] })) :=
  ⟨⟨rfl, by decide, by decide⟩,
   c9_invalid_year_is_atomic drv686c allOk zeroRegs zeroRegs tm50 alrm50 rfl
     (by decide) (by decide)⟩

/-- C8: the devicetree fragment declares exactly five gpio-keys child
nodes (Home, Power, Volume Down, Volume Up, Mute Switch), each with an
active-low GPIO and a Linux input code, only the Home and Power buttons
are wakeup sources, and framebuffer0 is assigned the two display power
domains ps_disp0 and ps_mipi_dsi. -/
theorem c8_devicetree_nodes :
    iphone6s_gpio_keys.length = 5 ∧
    iphone6s_gpio_keys.map (fun k => k.label)
      = ["Home Button", "Power Button", "Volume Down", "Volume Up", "Mute Switch"] ∧
    (∀ k ∈ iphone6s_gpio_keys, k.activeLow = true) ∧
    iphone6s_gpio_keys.map (fun k => k.code)
      = [KEY_HOMEPAGE, KEY_POWER, KEY_VOLUMEDOWN, KEY_VOLUMEUP, KEY_MUTE] ∧
    (∀ k ∈ iphone6s_gpio_keys,
      (k.wakeupSource = true ↔ (k.label = "Home Button" ∨ k.label = "Power Button"))) ∧
    framebuffer0_power_domains = ["ps_disp0", "ps_mipi_dsi"] := by
  refine ⟨rfl, rfl, ?_, rfl, ?_, rfl⟩ <;> decide

/-- C6: read_time never returns cached time: whenever it succeeds, its
trace shows that it first triggered a read-buffer update (RBUDR bit) on
the update register and then bulk-read the seven time registers, and the
rtc_time it returns is exactly max77686_rtc_data_to_tm applied to the
seven bytes read in that call (the bytes the final register file holds at
the seven consecutive time-register addresses). -/
theorem c6_read_time_is_fresh (drv : DrvData) (sched : Sched)
    (regs mainRegs : Nat → Nat) (tm0 : RtcTime) (h : ErrsNeg sched)
    (hsucc : 0 ≤ (max77686_rtc_read_time drv sched regs mainRegs tm0).1) :
    (max77686_rtc_read_time drv sched regs mainRegs tm0).1 = 0 ∧
    (max77686_rtc_read_time drv sched regs mainRegs tm0).2.2.trace
      = [Event.lock,
         Event.trans (Trans.updateBits (drv.map REG_RTC_UPDATE0) RTC_RBUDR_MASK RTC_RBUDR_MASK),
         Event.sleep drv.delay (drv.delay * 2),
         Event.trans (Trans.bulkRead (drv.map REG_RTC_SEC) RTC_NR_TIME),
         Event.unlock] ∧
    (max77686_rtc_read_time drv sched regs mainRegs tm0).2.1
      = max77686_rtc_data_to_tm
          ((List.range RTC_NR_TIME).map
            (fun i => (max77686_rtc_read_time drv sched regs mainRegs tm0).2.2.regs
              (drv.map REG_RTC_SEC + i))) drv := by
  cases h0 : sched 0 with
  | some e0 =>
    exfalso
    have he0 := h 0 e0 h0
    have hret : (max77686_rtc_read_time drv sched regs mainRegs tm0).1 = e0 := by
      simp [max77686_rtc_read_time, max77686_rtc_update, regmap_update_bits,
        recordCall, busResult, lockSt, unlockSt, h0, he0]
    omega
  | none =>
    cases h1 : sched 1 with
    | some e1 =>
      exfalso
      have he1 := h 1 e1 h1
      have hret : (max77686_rtc_read_time drv sched regs mainRegs tm0).1 = e1 := by
        simp [max77686_rtc_read_time, max77686_rtc_update, regmap_update_bits,
          regmap_bulk_read, recordCall, busResult, lockSt, unlockSt, h0, h1, he1]
      omega
    | none =>
      refine ⟨?_, ?_, ?_⟩ <;>
        simp [max77686_rtc_read_time, max77686_rtc_update, regmap_update_bits,
          regmap_bulk_read, recordCall, busResult, lockSt, unlockSt, h0, h1,
          RTC_RBUDR_MASK]

/-- C6 witness: the freshness statement instantiated on the concrete
MAX77686 instance with the all-success schedule. -/
theorem c6_read_time_is_fresh_witness :
    (ErrsNeg allOk ∧ 0 ≤ (max77686_rtc_read_time drv686c allOk zeroRegs zeroRegs tmW).1) ∧
    ((max77686_rtc_read_time drv686c allOk zeroRegs zeroRegs tmW).1 = 0 ∧
     (max77686_rtc_read_time drv686c allOk zeroRegs zeroRegs tmW).2.2.trace
       = [Event.lock,
          Event.trans (Trans.updateBits (drv686c.map REG_RTC_UPDATE0)
            RTC_RBUDR_MASK RTC_RBUDR_MASK),
          Event.sleep drv686c.delay (drv686c.delay * 2),
          Event.trans (Trans.bulkRead (drv686c.map REG_RTC_SEC) RTC_NR_TIME),
          Event.unlock] ∧
     (max77686_rtc_read_time drv686c allOk zeroRegs zeroRegs tmW).2.1
       = max77686_rtc_data_to_tm
           ((List.range RTC_NR_TIME).map
             (fun i => (max77686_rtc_read_time drv686c allOk zeroRegs zeroRegs tmW).2.2.regs
               (drv686c.map REG_RTC_SEC + i))) drv686c) :=
  ⟨⟨fun _ e hh => Option.noConfusion hh, by decide⟩,
   c6_read_time_is_fresh drv686c allOk zeroRegs zeroRegs tmW
     (fun _ e hh => Option.noConfusion hh) (by decide)⟩

/-! ## Alarm enable bit lemmas -/

theorem and127_and128 (x : Nat) : x &&& 127 &&& 128 = 0 := by
  rw [Nat.and_assoc]
  have h : (127 &&& 128 : Nat) = 0 := rfl
  rw [h, Nat.and_zero]

theorem or128_and128 (x : Nat) : (x ||| 128) &&& 128 = 128 := by
  apply Nat.eq_of_testBit_eq
  intro i
  simp only [Nat.testBit_and, Nat.testBit_or]
  cases hx : x.testBit i <;> cases h8 : (128 : Nat).testBit i <;> rfl

theorem exists_lt7_iff (P : Nat → Prop) :
    (∃ i, i < 7 ∧ P i) ↔ (P 0 ∨ P 1 ∨ P 2 ∨ P 3 ∨ P 4 ∨ P 5 ∨ P 6) := by
  constructor
  · rintro ⟨i, hi, hp⟩
    interval_cases i <;> tauto
  · rintro (h | h | h | h | h | h | h)
    exacts [⟨0, by omega, h⟩, ⟨1, by omega, h⟩, ⟨2, by omega, h⟩, ⟨3, by omega, h⟩,
      ⟨4, by omega, h⟩, ⟨5, by omega, h⟩, ⟨6, by omega, h⟩]

theorem forall_lt7_iff (P : Nat → Prop) :
    (∀ i, i < 7 → P i) ↔ (P 0 ∧ P 1 ∧ P 2 ∧ P 3 ∧ P 4 ∧ P 5 ∧ P 6) := by
  constructor
  · intro h
    exact ⟨h 0 (by omega), h 1 (by omega), h 2 (by omega), h 3 (by omega),
      h 4 (by omega), h 5 (by omega), h 6 (by omega)⟩
  · rintro ⟨h0, h1, h2, h3, h4, h5, h6⟩ i hi
    interval_cases i <;> assumption

theorem read_alarm_pending_allOk (drv : DrvData) (st : BusState) (ret : Int)
    (a : RtcWkalrm) :
    (max77686_rtc_read_alarm_pending drv allOk st ret a).2.1.enabled = a.enabled ∧
    (max77686_rtc_read_alarm_pending drv allOk st ret a).1
      = (if drv.alarm_pending_status_reg = MAX77686_INVALID_REG then ret else 0) := by
  by_cases hp : drv.alarm_pending_status_reg = MAX77686_INVALID_REG <;>
    simp [max77686_rtc_read_alarm_pending, regmap_read_main, recordCall,
      busResult, allOk, unlockSt, hp, apply_ite]

theorem read_alarm_pending_allOk_enabled (drv : DrvData) (st : BusState)
    (ret : Int) (a : RtcWkalrm) :
    (max77686_rtc_read_alarm_pending drv allOk st ret a).2.1.enabled = a.enabled :=
  (read_alarm_pending_allOk drv st ret a).1

theorem read_alarm_pending_allOk_ret (drv : DrvData) (st : BusState)
    (ret : Int) (a : RtcWkalrm) :
    (max77686_rtc_read_alarm_pending drv allOk st ret a).1
      = (if drv.alarm_pending_status_reg = MAX77686_INVALID_REG then ret else 0) :=
  (read_alarm_pending_allOk drv st ret a).2

set_option maxRecDepth 2000 in
theorem read_alarm_allOk_686 (H : Max77686Header)
    (hd : ∀ i, i < 7 → H.alarm1_sec + i ≠ H.rtc_update0) (drv : DrvData)
    (hmap : drv.map = max77686_map H) (hae : drv.alarm_enable_reg = false)
    (regs mainRegs : Nat → Nat) (alrm0 : RtcWkalrm) :
    (max77686_rtc_read_alarm drv allOk regs mainRegs alrm0).1 = 0 ∧
    ((max77686_rtc_read_alarm drv allOk regs mainRegs alrm0).2.1.enabled = 1 ↔
      ∃ i, i < 7 ∧ regs (H.alarm1_sec + i) &&& ALARM_ENABLE_MASK ≠ 0) ∧
    ((max77686_rtc_read_alarm drv allOk regs mainRegs alrm0).2.1.enabled = 0 ↔
      ¬ ∃ i, i < 7 ∧ regs (H.alarm1_sec + i) &&& ALARM_ENABLE_MASK ≠ 0) := by
  have hd0 : ¬ (H.alarm1_sec = H.rtc_update0) := by
    have := hd 0 (by omega)
    simpa using this
  have hd1 : ¬ (H.alarm1_sec + 1 = H.rtc_update0) := hd 1 (by omega)
  have hd2 : ¬ (H.alarm1_sec + 2 = H.rtc_update0) := hd 2 (by omega)
  have hd3 : ¬ (H.alarm1_sec + 3 = H.rtc_update0) := hd 3 (by omega)
  have hd4 : ¬ (H.alarm1_sec + 4 = H.rtc_update0) := hd 4 (by omega)
  have hd5 : ¬ (H.alarm1_sec + 5 = H.rtc_update0) := hd 5 (by omega)
  have hd6 : ¬ (H.alarm1_sec + 6 = H.rtc_update0) := hd 6 (by omega)
  have hm2 : drv.map REG_RTC_UPDATE0 = H.rtc_update0 := by rw [hmap]; rfl
  have hm11 : drv.map REG_ALARM1_SEC = H.alarm1_sec := by rw [hmap]; rfl
  have hrange : List.range RTC_NR_TIME = [0, 1, 2, 3, 4, 5, 6] := rfl
  refine ⟨?_, ?_, ?_⟩ <;>
    simp [max77686_rtc_read_alarm, max77686_rtc_update, regmap_update_bits,
      regmap_bulk_read, read_alarm_pending_allOk_enabled,
      read_alarm_pending_allOk_ret, recordCall, busResult, allOk, lockSt,
      unlockSt, hae, hm2, hm11, hrange, hd0, hd1, hd2, hd3, hd4, hd5, hd6,
      apply_ite]
  all_goals first
    | (rw [exists_lt7_iff]
       all_goals try simp only [Nat.add_zero]
       all_goals tauto)
    | (rw [forall_lt7_iff]
       all_goals try simp only [Nat.add_zero]
       all_goals try tauto)

theorem getD7_0 (a b c d e f g : Nat) : [a, b, c, d, e, f, g].getD 0 0 = a := rfl
theorem getD7_1 (a b c d e f g : Nat) : [a, b, c, d, e, f, g].getD 1 0 = b := rfl
theorem getD7_2 (a b c d e f g : Nat) : [a, b, c, d, e, f, g].getD 2 0 = c := rfl
theorem getD7_3 (a b c d e f g : Nat) : [a, b, c, d, e, f, g].getD 3 0 = d := rfl
theorem getD7_4 (a b c d e f g : Nat) : [a, b, c, d, e, f, g].getD 4 0 = e := rfl
theorem getD7_5 (a b c d e f g : Nat) : [a, b, c, d, e, f, g].getD 5 0 = f := rfl
theorem getD7_6 (a b c d e f g : Nat) : [a, b, c, d, e, f, g].getD 6 0 = g := rfl

theorem irq_enable_stop_allOk_686 (H : Max77686Header)
    (hd : ∀ i, i < 7 → H.alarm1_sec + i ≠ H.rtc_update0) (drv : DrvData)
    (hmap : drv.map = max77686_map H) (hae : drv.alarm_enable_reg = false)
    (regs mainRegs : Nat → Nat) :
    (max77686_rtc_alarm_irq_enable drv allOk regs mainRegs 0).1 = 0 ∧
    (∀ i, i < 7 →
      (max77686_rtc_alarm_irq_enable drv allOk regs mainRegs 0).2.regs
        (H.alarm1_sec + i) &&& ALARM_ENABLE_MASK = 0) := by
  have hd0 : ¬ (H.alarm1_sec = H.rtc_update0) := by
    have := hd 0 (by omega)
    simpa using this
  have hd1 : ¬ (H.alarm1_sec + 1 = H.rtc_update0) := hd 1 (by omega)
  have hd2 : ¬ (H.alarm1_sec + 2 = H.rtc_update0) := hd 2 (by omega)
  have hd3 : ¬ (H.alarm1_sec + 3 = H.rtc_update0) := hd 3 (by omega)
  have hd4 : ¬ (H.alarm1_sec + 4 = H.rtc_update0) := hd 4 (by omega)
  have hd5 : ¬ (H.alarm1_sec + 5 = H.rtc_update0) := hd 5 (by omega)
  have hd6 : ¬ (H.alarm1_sec + 6 = H.rtc_update0) := hd 6 (by omega)
  have hm2 : drv.map REG_RTC_UPDATE0 = H.rtc_update0 := by rw [hmap]; rfl
  have hm11 : drv.map REG_ALARM1_SEC = H.alarm1_sec := by rw [hmap]; rfl
  have hrange : List.range RTC_NR_TIME = [0, 1, 2, 3, 4, 5, 6] := rfl
  have hxor : (255 ^^^ ALARM_ENABLE_MASK) = 127 := rfl
  have hmask : ALARM_ENABLE_MASK = 128 := rfl
  constructor
  · simp [max77686_rtc_alarm_irq_enable, max77686_rtc_stop_alarm,
      max77686_rtc_update, regmap_update_bits, regmap_bulk_read,
      regmap_bulk_write, recordCall, busResult, allOk, lockSt, unlockSt, hae,
      hm2, hm11]
  · rw [forall_lt7_iff]
    simp [max77686_rtc_alarm_irq_enable, max77686_rtc_stop_alarm,
      max77686_rtc_update, regmap_update_bits, regmap_bulk_read,
      regmap_bulk_write, recordCall, busResult, allOk, lockSt, unlockSt, hae,
      hm2, hm11, hrange, hd0, hd1, hd2, hd3, hd4, hd5, hd6, hxor, hmask,
      and127_and128, getD7_0, getD7_1, getD7_2, getD7_3, getD7_4, getD7_5,
      getD7_6, Nat.le_add_right, Nat.add_sub_cancel_left]

theorem irq_enable_start_allOk_686 (H : Max77686Header)
    (hd : ∀ i, i < 7 → H.alarm1_sec + i ≠ H.rtc_update0) (drv : DrvData)
    (hmap : drv.map = max77686_map H) (hae : drv.alarm_enable_reg = false)
    (regs mainRegs : Nat → Nat) :
    (max77686_rtc_alarm_irq_enable drv allOk regs mainRegs 1).1 = 0 ∧
    (max77686_rtc_alarm_irq_enable drv allOk regs mainRegs 1).2.regs
      H.alarm1_sec &&& ALARM_ENABLE_MASK ≠ 0 := by
  have hd0 : ¬ (H.alarm1_sec = H.rtc_update0) := by
    have := hd 0 (by omega)
    simpa using this
  have hm2 : drv.map REG_RTC_UPDATE0 = H.rtc_update0 := by rw [hmap]; rfl
  have hm11 : drv.map REG_ALARM1_SEC = H.alarm1_sec := by rw [hmap]; rfl
  have hrange : List.range RTC_NR_TIME = [0, 1, 2, 3, 4, 5, 6] := rfl
  have hmask : ALARM_ENABLE_MASK = 128 := rfl
  constructor
  · simp [max77686_rtc_alarm_irq_enable, max77686_rtc_start_alarm,
      max77686_rtc_update, regmap_update_bits, regmap_bulk_read,
      regmap_bulk_write, recordCall, busResult, allOk, lockSt, unlockSt, hae,
      hm2, hm11]
  · simp [max77686_rtc_alarm_irq_enable, max77686_rtc_start_alarm,
      max77686_rtc_update, regmap_update_bits, regmap_bulk_read,
      regmap_bulk_write, startAlarmData, recordCall, busResult, allOk, lockSt,
      unlockSt, hae, hm2, hm11, hrange, hd0, hmask, or128_and128,
      getD7_0, getD7_1, getD7_2, getD7_3, getD7_4, getD7_5, getD7_6,
      Nat.le_add_right, Nat.add_sub_cancel_left]

/-- C10: on models without a separate alarm enable register, a successful
read_alarm reports enabled = 1 exactly when at least one of the seven
alarm registers read has its enable bit (bit 7) set; after a successful
stop (alarm_irq_enable 0), which clears bit 7 in all seven alarm
registers, a subsequent read_alarm reports enabled = 0; and after a
successful start (alarm_irq_enable 1), which sets bit 7 in at least the
seconds register, it reports enabled = 1 (all runs on the all-success
schedule, so every operation involved succeeds). -/
theorem c10_alarm_enable_bit_semantics (H : Max77686Header) (hv : H.Valid)
    (drv : DrvData) (hmap : drv.map = max77686_map H)
    (hae : drv.alarm_enable_reg = false) (regs mainRegs : Nat → Nat)
    (alrm0 : RtcWkalrm) :
    ((max77686_rtc_read_alarm drv allOk regs mainRegs alrm0).1 = 0 ∧
     ((max77686_rtc_read_alarm drv allOk regs mainRegs alrm0).2.1.enabled = 1 ↔
       ∃ i, i < 7 ∧ regs (H.alarm1_sec + i) &&& ALARM_ENABLE_MASK ≠ 0)) ∧
    ((max77686_rtc_alarm_irq_enable drv allOk regs mainRegs 0).1 = 0 ∧
     (max77686_rtc_read_alarm drv allOk
        (max77686_rtc_alarm_irq_enable drv allOk regs mainRegs 0).2.regs
        mainRegs alrm0).2.1.enabled = 0) ∧
    ((max77686_rtc_alarm_irq_enable drv allOk regs mainRegs 1).1 = 0 ∧
     (max77686_rtc_read_alarm drv allOk
        (max77686_rtc_alarm_irq_enable drv allOk regs mainRegs 1).2.regs
        mainRegs alrm0).2.1.enabled = 1) := by
  obtain ⟨_, _, _, _, _, _, _, _, _, _, _, _, _, _, _, _, _, _, _, _, _, _, _,
    _, _, _, hd⟩ := hv
  refine ⟨⟨(read_alarm_allOk_686 H hd drv hmap hae regs mainRegs alrm0).1,
           (read_alarm_allOk_686 H hd drv hmap hae regs mainRegs alrm0).2.1⟩, ?_, ?_⟩
  · obtain ⟨hret, hzero⟩ := irq_enable_stop_allOk_686 H hd drv hmap hae regs mainRegs
    refine ⟨hret, ?_⟩
    rw [(read_alarm_allOk_686 H hd drv hmap hae _ mainRegs alrm0).2.2]
    rintro ⟨i, hi, hne⟩
    exact hne (hzero i hi)
  · obtain ⟨hret, hbit⟩ := irq_enable_start_allOk_686 H hd drv hmap hae regs mainRegs
    refine ⟨hret, ?_⟩
    rw [(read_alarm_allOk_686 H hd drv hmap hae _ mainRegs alrm0).2.1]
    exact ⟨0, by omega, by simpa using hbit⟩

/-- C10 witness: the alarm enable bit semantics instantiated on the
concrete MAX77686 instance with the all-zero register file. -/
theorem c10_alarm_enable_bit_semantics_witness :
    (H686c.Valid ∧ drv686c.map = max77686_map H686c ∧
      drv686c.alarm_enable_reg = false) ∧
    (((max77686_rtc_read_alarm drv686c allOk zeroRegs zeroRegs alrmW).1 = 0 ∧
      ((max77686_rtc_read_alarm drv686c allOk zeroRegs zeroRegs alrmW).2.1.enabled = 1 ↔
        ∃ i, i < 7 ∧ zeroRegs (H686c.alarm1_sec + i) &&& ALARM_ENABLE_MASK ≠ 0)) ∧
     ((max77686_rtc_alarm_irq_enable drv686c allOk zeroRegs zeroRegs 0).1 = 0 ∧
      (max77686_rtc_read_alarm drv686c allOk
         (max77686_rtc_alarm_irq_enable drv686c allOk zeroRegs zeroRegs 0).2.regs
         zeroRegs alrmW).2.1.enabled = 0) ∧
     ((max77686_rtc_alarm_irq_enable drv686c allOk zeroRegs zeroRegs 1).1 = 0 ∧
      (max77686_rtc_read_alarm drv686c allOk
         (max77686_rtc_alarm_irq_enable drv686c allOk zeroRegs zeroRegs 1).2.regs
         zeroRegs alrmW).2.1.enabled = 1)) :=
  ⟨⟨by unfold Max77686Header.Valid; decide, rfl, rfl⟩,
   c10_alarm_enable_bit_semantics H686c (by unfold Max77686Header.Valid; decide)
     drv686c rfl rfl zeroRegs zeroRegs alrmW⟩

end Max77686Rtc
